import Mathlib

/-!
# Animation control of `oglwrap::AnimatedMesh`

A shallow embedding of `oglwrap/mesh/animatedMesh_animation-control-inl.hpp`.

Conventions of the embedding:

* `float` values (times, speeds, offset components) are rationals; comparisons, negation and
  subtraction are taken exactly, which changes no branch of the code.  The one float operation
  whose rounding decides a branch, the sum `end_of_last_anim + transition_time` in the guard of
  `setCurrentAnimation`, is rounded to single precision before it is compared (`f32add`);
* `unsigned` flag words are natural numbers; only `&` and `^` are applied to them, which never
  leave the 32-bit range, so no reduction modulo `2^32` is needed;
* a pointer (`const aiScene*`) is a natural number, `0` being `nullptr`;
* a member function becomes a function from the mesh before the call to an `Outcome`: the mesh
  after the call together with the exception that left the call, if any.  A C++ exception does
  not roll the object back, so the mesh of a failed call is the mesh as the `throw` found it.
-/

set_option linter.unusedVariables false

namespace oglwrap

/-- The `glm::vec3` of the source. -/
structure Vec3 where
  x : ℚ
  y : ℚ
  z : ℚ
deriving DecidableEq

/-- The `glm::vec2` of the source. -/
structure Vec2 where
  x : ℚ
  y : ℚ
deriving DecidableEq

/-- The value of `glm::vec3()`. -/
def Vec3.zero : Vec3 := ⟨0, 0, 0⟩

/-- Componentwise difference, `a - b` on `glm::vec3`. -/
def Vec3.sub (a b : Vec3) : Vec3 := ⟨a.x - b.x, a.y - b.y, a.z - b.z⟩

/-- Scaling by a scalar, `v *= s` on `glm::vec3`. -/
def Vec3.scale (v : Vec3) (s : ℚ) : Vec3 := ⟨v.x * s, v.y * s, v.z * s⟩

/-- Componentwise negation; what `v *= -1` amounts to. -/
def Vec3.neg (v : Vec3) : Vec3 := ⟨-v.x, -v.y, -v.z⟩

namespace AnimFlag

/-- Modelled from the spec: the `AnimFlag` enumeration is declared in `animatedMesh.hpp`, which
is not among the sources.  The spec lists the flags Repeat, Backwards, Mirrored and
Interruptable as independently combinable bits; they are given four distinct bits here. -/
def Repeat : Nat := 1

/-- Modelled from the spec: see `AnimFlag.Repeat`. -/
def Backwards : Nat := 2

/-- Modelled from the spec: see `AnimFlag.Repeat`. -/
def Mirrored : Nat := 4

/-- Modelled from the spec: see `AnimFlag.Repeat`. -/
def Interruptable : Nat := 8

end AnimFlag

/-- The C++ truth value of `flags & bit`. -/
def hasFlag (flags bit : Nat) : Bool := (flags &&& bit) != 0

/-- Modelled from the spec: `AnimInfo` is declared in `animInfo.hpp`, which is not among the
sources; these are the members the control code reads and writes (the `importer` member only
owns the imported data and is never read back). -/
structure AnimInfo where
  handle : Nat
  start_offset : Vec3
  end_offset : Vec3
  flags : Nat
  speed : ℚ
deriving DecidableEq

/-- Modelled from the spec: the container behind `anims_` is declared in `animInfo.hpp`, which
is not among the sources.  `names` is the `std::map` from clip name to index (an association
list read by its first matching key), `data` the `std::vector` of clips. -/
structure Animations where
  names : List (String × Nat)
  data : List AnimInfo
deriving DecidableEq

/-- Reading a key of the name map: `names.find(key)`. -/
def mapFind : List (String × Nat) → String → Option Nat
  | [], _ => none
  | (k, v) :: rest, key => if k = key then some v else mapFind rest key

/-- Writing a key of the name map, `names[key] = val`: overwrites the entry of an existing key
and inserts a new entry otherwise. -/
def mapSet : List (String × Nat) → String → Nat → List (String × Nat)
  | [], key, val => [(key, val)]
  | (k, v) :: rest, key, val =>
    if k = key then (k, val) :: rest else (k, v) :: mapSet rest key val

/-- Modelled from the spec: `anims_.canFind(name)` is declared in `animInfo.hpp`, which is not
among the sources; "the name already exists" in the registry. -/
def Animations.canFind (a : Animations) (name : String) : Bool :=
  (mapFind a.names name).isSome

/-- The playback state behind `current_anim_` and `last_anim_`. -/
structure AnimationState where
  idx : Nat
  handle : Nat
  offset : Vec3
  speed : ℚ
  flags : Nat
deriving DecidableEq

/-- The transition metadata behind `anim_meta_info_`. -/
structure AnimMetaInfo where
  default_idx : Nat
  default_transition_time : ℚ
  transition_time : ℚ
  end_of_last_anim : ℚ
  last_period_time : ℚ
deriving DecidableEq

/-- The members of `AnimatedMesh` that the animation control reads and writes. -/
structure AnimatedMesh where
  anims_ : Animations
  anim_meta_info_ : AnimMetaInfo
  current_anim_ : AnimationState
  last_anim_ : AnimationState
deriving DecidableEq

/-- The ways a call can end other than by returning.  The first five are the `throw` sites of
the source, named as the spec names them; `AssertionFailed` is a failed `assert`, and
`OutOfRange` stands for an access past the end of a vector or key array, which C++ leaves
undefined. -/
inductive Error where
  | DuplicateName
  | ImportFailure
  | NoCommonBone
  | UnknownAnimationName
  | InvalidDefaultFlag
  | AssertionFailed
  | OutOfRange
deriving DecidableEq

/-- The mesh after a call and the error that ended the call, if any. -/
structure Outcome where
  mesh : AnimatedMesh
  error : Option Error
deriving DecidableEq

/-- What the asset-import collaborators hand to one `addAnimation` call: `blank` is the value
of `AnimInfo()`, `scene` the pointer returned by `ReadFile` (`0` when parsing failed), and
`node` the result of `getRootBone`: `none` for a null pointer, otherwise the `mValue`s of the
node's `mPositionKeys`. -/
structure Import where
  blank : AnimInfo
  scene : Nat
  node : Option (List Vec3)

/-- Assignment to `anims_[idx]`, applied through `f`. -/
def Animations.modify (a : Animations) (idx : Nat) (f : AnimInfo → AnimInfo) : Animations :=
  { a with data := a.data.modify f idx }

/-- The source function `AnimatedMesh::addAnimation`. -/
def addAnimation (m : AnimatedMesh) (imp : Import) (filename anim_name : String)
    (flags : Nat) (speed : ℚ) : Outcome :=
  if m.anims_.canFind anim_name then
    ⟨m, some Error.DuplicateName⟩
  else
    let idx := m.anims_.data.length
    let anims : Animations :=
      { names := mapSet m.anims_.names anim_name idx, data := m.anims_.data ++ [imp.blank] }
    let anims := anims.modify idx (fun i => { i with handle := imp.scene })
    if imp.scene = 0 then
      ⟨{ m with anims_ := anims }, some Error.ImportFailure⟩
    else
      match imp.node with
      | none => ⟨{ m with anims_ := anims }, some Error.NoCommonBone⟩
      | some keys =>
        match keys[0]?, keys[keys.length - 1]? with
        | some first, some last =>
          let anims := anims.modify idx (fun i => { i with start_offset := first })
          let anims := anims.modify idx (fun i => { i with end_offset := last })
          let anims := anims.modify idx (fun i => { i with flags := flags })
          let anims := anims.modify idx (fun i => { i with speed := speed })
          ⟨{ m with anims_ := anims }, none⟩
        | _, _ => ⟨{ m with anims_ := anims }, some Error.OutOfRange⟩

/-- The source function `AnimatedMesh::setDefaultAnimation`. -/
def setDefaultAnimation (m : AnimatedMesh) (anim_name : String)
    (default_transition_time : ℚ) : Outcome :=
  match mapFind m.anims_.names anim_name with
  | none => ⟨m, some Error.UnknownAnimationName⟩
  | some idx =>
    let m1 : AnimatedMesh :=
      { m with anim_meta_info_ :=
          { m.anim_meta_info_ with
              default_idx := idx, default_transition_time := default_transition_time } }
    match m1.anims_.data[m1.anim_meta_info_.default_idx]? with
    | none => ⟨m1, some Error.OutOfRange⟩
    | some info =>
      if !(hasFlag info.flags AnimFlag.Repeat) then
        ⟨m1, some Error.InvalidDefaultFlag⟩
      else
        ⟨m1, none⟩

/-- The source function `AnimatedMesh::changeAnimation`. -/
def changeAnimation (m : AnimatedMesh) (anim_idx : Nat) (current_time transition_time : ℚ)
    (flags : Nat) (speed : ℚ) : Outcome :=
  match m.anims_.data[anim_idx]? with
  | none => ⟨m, some Error.OutOfRange⟩
  | some info =>
    let was_last_invalid : Bool := m.last_anim_.handle == 0
    let last : AnimationState := m.current_anim_
    let cur : AnimationState := { m.current_anim_ with idx := anim_idx, handle := info.handle }
    let cur : AnimationState :=
      if hasFlag flags AnimFlag.Backwards then { cur with offset := info.end_offset }
      else { cur with offset := info.start_offset }
    let cur : AnimationState :=
      if hasFlag flags AnimFlag.Mirrored then { cur with offset := cur.offset.scale (-1) }
      else cur
    let last : AnimationState := { last with offset := cur.offset }
    let cur : AnimationState :=
      if speed > 0 then { cur with speed := speed, flags := flags }
      else { cur with speed := -speed, flags := flags ^^^ AnimFlag.Backwards }
    let last : AnimationState :=
      if was_last_invalid then { cur with offset := Vec3.zero } else last
    let info_ : AnimMetaInfo :=
      { m.anim_meta_info_ with
          transition_time := transition_time,
          last_period_time := current_time - m.anim_meta_info_.end_of_last_anim,
          end_of_last_anim := current_time }
    ⟨{ m with current_anim_ := cur, last_anim_ := last, anim_meta_info_ := info_ }, none⟩

/-- The source function `AnimatedMesh::forceCurrentAnimation`, overload taking `flags`. -/
def forceCurrentAnimation (m : AnimatedMesh) (anim_name : String)
    (current_time transition_time : ℚ) (flags : Nat) (speed : ℚ) : Outcome :=
  match mapFind m.anims_.names anim_name with
  | none => ⟨m, some Error.UnknownAnimationName⟩
  | some anim_idx =>
    match m.anims_.data[anim_idx]? with
    | none => ⟨m, some Error.OutOfRange⟩
    | some info =>
      if m.current_anim_.handle = info.handle then
        ⟨m, none⟩
      else if |speed| < 1 / 100000 then
        changeAnimation m anim_idx current_time transition_time flags info.speed
      else
        changeAnimation m anim_idx current_time transition_time flags speed

/-- Rounding of a rational to the nearest integer, a tie going to the even one. -/
def roundHalfEven (y : ℚ) : ℤ :=
  let f : ℤ := ⌊y⌋
  let r : ℚ := y - f
  if r < 1 / 2 then f
  else if 1 / 2 < r then f + 1
  else if f % 2 = 0 then f else f + 1

/-- Rounding of a real value to the nearest IEEE single-precision number, ties to even: with
`e` the binary exponent of `x` (not below -126, where the subnormal numbers start) the result
is the multiple of `2 ^ (e - 23)` nearest to `x`.  Overflow to infinity is not represented:
a value beyond the `float` range keeps a magnitude of at least `2 ^ 128`, which compares with
every finite `float` as the infinity does. -/
def roundF32 (x : ℚ) : ℚ :=
  if x = 0 then 0
  else
    let e : ℤ := max (Int.log 2 |x|) (-126)
    let q : ℚ := 2 ^ (e - 23)
    roundHalfEven (x / q) * q

/-- The `float` sum `a + b` of two `float` values: the exact sum rounded once. -/
def f32add (a b : ℚ) : ℚ := roundF32 (a + b)

/-- The source function `AnimatedMesh::setCurrentAnimation`, overload taking `flags`. -/
def setCurrentAnimation (m : AnimatedMesh) (anim_name : String)
    (current_time transition_time : ℚ) (flags : Nat) (speed : ℚ) : Outcome :=
  if f32add m.anim_meta_info_.end_of_last_anim m.anim_meta_info_.transition_time ≤ current_time
      ∧ hasFlag m.current_anim_.flags AnimFlag.Interruptable = true then
    forceCurrentAnimation m anim_name current_time transition_time flags speed
  else
    ⟨m, none⟩

/-- The source function `AnimatedMesh::forceCurrentAnimation`, overload without `flags`. -/
def forceCurrentAnimation_noflags (m : AnimatedMesh) (anim_name : String)
    (current_time transition_time : ℚ) (speed : ℚ) : Outcome :=
  match mapFind m.anims_.names anim_name with
  | none => ⟨m, some Error.UnknownAnimationName⟩
  | some anim_idx =>
    match m.anims_.data[anim_idx]? with
    | none => ⟨m, some Error.OutOfRange⟩
    | some info =>
      if m.current_anim_.handle = info.handle then
        ⟨m, none⟩
      else if |speed| < 1 / 100000 then
        changeAnimation m anim_idx current_time transition_time info.flags info.speed
      else
        changeAnimation m anim_idx current_time transition_time info.flags speed

/-- The source function `AnimatedMesh::setCurrentAnimation`, overload without `flags`. -/
def setCurrentAnimation_noflags (m : AnimatedMesh) (anim_name : String)
    (current_time transition_time : ℚ) (speed : ℚ) : Outcome :=
  if f32add m.anim_meta_info_.end_of_last_anim m.anim_meta_info_.transition_time ≤ current_time
      ∧ hasFlag m.current_anim_.flags AnimFlag.Interruptable = true then
    forceCurrentAnimation_noflags m anim_name current_time transition_time speed
  else
    ⟨m, none⟩

/-- The source function `AnimatedMesh::forceAnimToDefault`. -/
def forceAnimToDefault (m : AnimatedMesh) (current_time : ℚ) : Outcome :=
  match m.anims_.data[m.anim_meta_info_.default_idx]? with
  | none => ⟨m, some Error.OutOfRange⟩
  | some info =>
    if !(hasFlag info.flags AnimFlag.Repeat) then
      ⟨m, some Error.AssertionFailed⟩
    else if m.current_anim_.handle ≠ info.handle then
      changeAnimation m m.anim_meta_info_.default_idx current_time
        m.anim_meta_info_.default_transition_time info.flags info.speed
    else
      ⟨m, none⟩

/-- The source function `AnimatedMesh::setAnimToDefault`. -/
def setAnimToDefault (m : AnimatedMesh) (current_time : ℚ) : Outcome :=
  if hasFlag m.current_anim_.flags AnimFlag.Interruptable then
    forceAnimToDefault m current_time
  else
    ⟨m, none⟩

/-- The source function `AnimatedMesh::offsetSinceLastFrame`: the returned vector and the mesh
after the call. -/
def offsetSinceLastFrame (m : AnimatedMesh) : Vec2 × AnimatedMesh :=
  let ret := m.current_anim_.offset.sub m.last_anim_.offset
  let m1 : AnimatedMesh := { m with last_anim_ := { m.last_anim_ with offset := m.current_anim_.offset } }
  (⟨ret.x, ret.z⟩, m1)

/-! ## Sample states: the "walk" scenario -/

/-- A mesh on which nothing has been loaded or played yet: empty registry, null handles, all
times zero. -/
def freshMesh : AnimatedMesh :=
  { anims_ := ⟨[], []⟩
    anim_meta_info_ := ⟨0, 0, 0, 0, 0⟩
    current_anim_ := ⟨0, 0, Vec3.zero, 0, 0⟩
    last_anim_ := ⟨0, 0, Vec3.zero, 0, 0⟩ }

/-- An import whose root bone moves from (0,0,0) to (0,0,2); the scene pointer is `p`. -/
def walkImport (p : Nat) : Import :=
  { blank := ⟨0, Vec3.zero, Vec3.zero, 0, 0⟩
    scene := p
    node := some [⟨0, 0, 0⟩, ⟨0, 0, 2⟩] }

/-- The flag word with Repeat and Interruptable set. -/
def repeatInterruptable : Nat := 9

/-- The fresh mesh after loading the clip "walk" (scene pointer 1) with flags Repeat and
Interruptable and speed 1. -/
def walkLoaded : AnimatedMesh :=
  { anims_ := ⟨[("walk", 0)], [⟨1, ⟨0, 0, 0⟩, ⟨0, 0, 2⟩, 9, 1⟩]⟩
    anim_meta_info_ := ⟨0, 0, 0, 0, 0⟩
    current_anim_ := ⟨0, 0, ⟨0, 0, 0⟩, 0, 0⟩
    last_anim_ := ⟨0, 0, ⟨0, 0, 0⟩, 0, 0⟩ }

/-- The "walk" mesh after `forceCurrentAnimation("walk", 0, 0.2, Repeat|Interruptable, 1)`. -/
def walkPlaying : AnimatedMesh :=
  { anims_ := ⟨[("walk", 0)], [⟨1, ⟨0, 0, 0⟩, ⟨0, 0, 2⟩, 9, 1⟩]⟩
    anim_meta_info_ := ⟨0, 0, 1 / 5, 0, 0⟩
    current_anim_ := ⟨0, 1, ⟨0, 0, 0⟩, 1, 9⟩
    last_anim_ := ⟨0, 1, ⟨0, 0, 0⟩, 1, 9⟩ }


/-- The "walk" mesh with a second clip "jump" (scene pointer 2) loaded with the flag
Interruptable only, that is without Repeat. -/
def walkJumpLoaded : AnimatedMesh :=
  { anims_ := ⟨[("walk", 0), ("jump", 1)],
      [⟨1, ⟨0, 0, 0⟩, ⟨0, 0, 2⟩, 9, 1⟩, ⟨2, ⟨0, 0, 0⟩, ⟨0, 0, 2⟩, 8, 1⟩]⟩
    anim_meta_info_ := ⟨0, 0, 0, 0, 0⟩
    current_anim_ := ⟨0, 0, ⟨0, 0, 0⟩, 0, 0⟩
    last_anim_ := ⟨0, 0, ⟨0, 0, 0⟩, 0, 0⟩ }

/-- The mesh `walkJumpLoaded` with "walk" as default clip and default transition time 1/5. -/
def walkDefault : AnimatedMesh :=
  { walkJumpLoaded with anim_meta_info_ := ⟨0, 1 / 5, 0, 0, 0⟩ }

/-- The mesh `walkJumpLoaded` whose default index points at "jump", with default transition
time 1/2. -/
def jumpDefault : AnimatedMesh :=
  { walkJumpLoaded with anim_meta_info_ := ⟨1, 1 / 2, 0, 0, 0⟩ }

/-- The arguments of one `addAnimation` call, with what the importer returns to it. -/
structure AddCall where
  imp : Import
  filename : String
  anim_name : String
  flags : Nat
  speed : ℚ

/-- A sequence of `addAnimation` calls, each made on the mesh the previous call left, whether
that call returned or threw. -/
def addAnimations (m : AnimatedMesh) : List AddCall → AnimatedMesh
  | [] => m
  | c :: rest =>
    addAnimations (addAnimation m c.imp c.filename c.anim_name c.flags c.speed).mesh rest

/-- The mesh `walkJumpLoaded` while "walk" is playing: the state left by
`forceCurrentAnimation("walk", 0, 0.2, Repeat|Interruptable, 1)`, so the transition window ends
at time 1/5 and the previous state is no longer null. -/
def walkJumpPlaying : AnimatedMesh :=
  { walkJumpLoaded with
    anim_meta_info_ := ⟨0, 0, 1 / 5, 0, 0⟩
    current_anim_ := ⟨0, 1, ⟨0, 0, 0⟩, 1, 9⟩
    last_anim_ := ⟨0, 1, ⟨0, 0, 0⟩, 1, 9⟩ }

/-- An import that fails to parse: `ReadFile` returns a null scene. -/
def failedImport : Import :=
  { blank := ⟨0, Vec3.zero, Vec3.zero, 0, 0⟩
    scene := 0
    node := none }

/-- An import that parses (scene pointer `p`) but shares no bone with the mesh. -/
def bonelessImport (p : Nat) : Import :=
  { blank := ⟨0, Vec3.zero, Vec3.zero, 0, 0⟩
    scene := p
    node := none }

/-- A mesh whose only clip "still" (scene pointer 1) stores speed 0 and no flags; nothing is
playing yet. -/
def stillLoaded : AnimatedMesh :=
  { anims_ := ⟨[("still", 0)], [⟨1, ⟨0, 0, 0⟩, ⟨0, 0, 2⟩, 0, 0⟩]⟩
    anim_meta_info_ := ⟨0, 0, 0, 0, 0⟩
    current_anim_ := ⟨0, 0, ⟨0, 0, 0⟩, 0, 0⟩
    last_anim_ := ⟨0, 0, ⟨0, 0, 0⟩, 0, 0⟩ }

/-- The mesh `walkJumpLoaded` one hour in: the state left by
`forceCurrentAnimation("walk", 3600, 0.2f, Repeat|Interruptable, 1)`, where `0.2f` is the
`float` nearest to 0.2, that is 13421773/67108864.  The exact sum of `end_of_last_anim` and
`transition_time` is 3600.2000000029..., the `float` sum is 3600.199951171875, that is
14746419/4096. -/
def walkJumpLate : AnimatedMesh :=
  { walkJumpLoaded with
    anim_meta_info_ := ⟨0, 0, 13421773 / 67108864, 3600, 3600⟩
    current_anim_ := ⟨0, 1, ⟨0, 0, 0⟩, 1, 9⟩
    last_anim_ := ⟨0, 1, ⟨0, 0, 0⟩, 1, 9⟩ }

/-! ## General facts about the embedding -/

theorem roundHalfEven_of_near (y : ℚ) (n : ℤ) (h : |y - n| < 1 / 2) :
    roundHalfEven y = n := by
  have h1 := abs_lt.1 h
  unfold roundHalfEven
  by_cases hle : (n : ℚ) ≤ y
  · have hf : ⌊y⌋ = n := by
      rw [Int.floor_eq_iff]
      exact ⟨hle, by linarith [h1.2]⟩
    simp only [hf]
    rw [if_pos h1.2]
  · have hlt : y < n := not_le.1 hle
    have hf : ⌊y⌋ = n - 1 := by
      rw [Int.floor_eq_iff]
      push_cast
      constructor <;> linarith [h1.1]
    simp only [hf]
    push_cast
    have hr : ¬ (y - (n - 1) < 1 / 2) := by linarith [h1.1]
    have hr2 : (1 / 2 : ℚ) < y - (n - 1) := by linarith [h1.1]
    rw [if_neg hr, if_pos hr2]
    ring

/-- How `roundF32` is evaluated: once the binary exponent `e` of `x` and an integer `n` within
one half of `x / 2 ^ (e - 23)` are known, the rounded value is `n * 2 ^ (e - 23)`. -/
theorem roundF32_of_near (x : ℚ) (e n : ℤ) (hx : x ≠ 0) (hlo : (2 : ℚ) ^ e ≤ |x|)
    (hhi : |x| < (2 : ℚ) ^ (e + 1)) (hmin : -126 ≤ e)
    (hn : |x / (2 : ℚ) ^ (e - 23) - n| < 1 / 2) :
    roundF32 x = n * (2 : ℚ) ^ (e - 23) := by
  have hpos : 0 < |x| := abs_pos.2 hx
  have hlog : Int.log 2 |x| = e := by
    have h1 : e ≤ Int.log 2 |x| :=
      (Int.zpow_le_iff_le_log (by norm_num) hpos).1 (by exact_mod_cast hlo)
    have h2 : Int.log 2 |x| < e + 1 :=
      (Int.lt_zpow_iff_log_lt (by norm_num) hpos).1 (by exact_mod_cast hhi)
    omega
  simp only [roundF32, if_neg hx, hlog, max_eq_left hmin]
  rw [roundHalfEven_of_near _ n hn]

theorem roundHalfEven_le_of_le (y : ℚ) (k : ℤ) (h : y ≤ k) : roundHalfEven y ≤ k := by
  have hfl : (⌊y⌋ : ℚ) ≤ y := Int.floor_le y
  have hfk : ⌊y⌋ ≤ k := by exact_mod_cast hfl.trans h
  unfold roundHalfEven
  by_cases hr : y - (⌊y⌋ : ℚ) < 1 / 2
  · simp only [hr, if_true]
    exact hfk
  · have hlt : ⌊y⌋ < k := by
      rcases lt_or_eq_of_le hfk with h1 | h1
      · exact h1
      · exfalso
        apply hr
        rw [h1]
        linarith
    simp only [hr, if_false]
    split_ifs <;> omega

theorem roundF32_eq (x : ℚ) (hx : x ≠ 0) :
    roundF32 x = roundHalfEven (x / 2 ^ (max (Int.log 2 |x|) (-126) - 23))
      * 2 ^ (max (Int.log 2 |x|) (-126) - 23) := by
  simp only [roundF32, if_neg hx]

theorem roundF32_le_of_multiple (s t : ℚ) (k : ℤ) (hs : s ≠ 0) (h : s ≤ t)
    (hk : t = k * 2 ^ (max (Int.log 2 |s|) (-126) - 23)) : roundF32 s ≤ t := by
  rw [roundF32_eq s hs]
  have hq : (0 : ℚ) < 2 ^ (max (Int.log 2 |s|) (-126) - 23) := zpow_pos (by norm_num) _
  have hy : s / 2 ^ (max (Int.log 2 |s|) (-126) - 23) ≤ k := by
    rw [div_le_iff₀ hq, ← hk]; exact h
  have := roundHalfEven_le_of_le _ k hy
  rw [hk]
  exact mul_le_mul_of_nonneg_right (by exact_mod_cast this) hq.le

theorem float_multiple (t : ℚ) (ht : roundF32 t = t) (ht0 : t ≠ 0) (e : ℤ)
    (he : e ≤ max (Int.log 2 |t|) (-126)) : ∃ k : ℤ, t = k * 2 ^ (e - 23) := by
  have h := roundF32_eq t ht0
  rw [ht] at h
  obtain ⟨d, hd⟩ : ∃ d : ℕ, max (Int.log 2 |t|) (-126) = e + d :=
    ⟨(max (Int.log 2 |t|) (-126) - e).toNat, by omega⟩
  refine ⟨roundHalfEven (t / 2 ^ (max (Int.log 2 |t|) (-126) - 23)) * 2 ^ d, ?_⟩
  have hz : (2 : ℚ) ^ (max (Int.log 2 |t|) (-126) - 23) = 2 ^ d * 2 ^ (e - 23) := by
    rw [hd, show e + (d : ℤ) - 23 = (d : ℤ) + (e - 23) by ring, zpow_add₀ (by norm_num),
      zpow_natCast]
  conv_lhs => rw [h]
  rw [hz]
  push_cast
  ring

/-- Rounding never carries a sum past a `float` it does not exceed: for a `float` time `t`
(one that rounding leaves unchanged), the exact comparison `s ≤ t` implies the comparison
`roundF32 s ≤ t` that the code makes. -/
theorem roundF32_le_of_le_float (s t : ℚ) (ht : roundF32 t = t) (h : s ≤ t) :
    roundF32 s ≤ t := by
  by_cases hs0 : s = 0
  · subst hs0
    simpa [roundF32] using h
  rcases lt_or_gt_of_ne hs0 with hneg | hpos
  · by_cases htn : 0 ≤ t
    · have : roundF32 s ≤ 0 := by
        apply roundF32_le_of_multiple s 0 0 hs0 hneg.le
        simp
      exact this.trans htn
    · have htneg : t < 0 := not_le.1 htn
      have ht0 : t ≠ 0 := htneg.ne
      have habs : |t| ≤ |s| := by
        rw [abs_of_neg htneg, abs_of_neg hneg]; linarith
      have hlog : Int.log 2 |t| ≤ Int.log 2 |s| :=
        Int.log_mono_right (abs_pos.2 ht0) habs
      by_cases heq : max (Int.log 2 |s|) (-126) ≤ max (Int.log 2 |t|) (-126)
      · obtain ⟨k, hk⟩ := float_multiple t ht ht0 _ heq
        exact roundF32_le_of_multiple s t k hs0 h hk
      · have hlt : max (Int.log 2 |t|) (-126) < max (Int.log 2 |s|) (-126) := not_le.1 heq
        have hes : max (Int.log 2 |s|) (-126) = Int.log 2 |s| := by
          apply max_eq_left
          by_contra hc
          rw [max_eq_right (not_le.1 hc).le] at hlt
          exact absurd (le_max_right _ _) (not_le.2 hlt)
        have hlt2 : Int.log 2 |t| + 1 ≤ Int.log 2 |s| := by
          have := le_max_left (Int.log 2 |t|) (-126)
          omega
        have hslo : (2 : ℚ) ^ (Int.log 2 |s|) ≤ |s| := by
          have := Int.zpow_log_le_self (b := 2) (by norm_num) (abs_pos.2 hs0)
          exact_mod_cast this
        have hthi : |t| < (2 : ℚ) ^ (Int.log 2 |t| + 1) := by
          have := Int.lt_zpow_succ_log_self (b := 2) (by norm_num) |t|
          exact_mod_cast this
        have hpow : (2 : ℚ) ^ (Int.log 2 |t| + 1) ≤ 2 ^ (Int.log 2 |s|) :=
          zpow_le_zpow_right₀ (by norm_num) hlt2
        have hr : roundF32 s ≤ -(2 : ℚ) ^ (Int.log 2 |s|) := by
          apply roundF32_le_of_multiple s _ (-(2 : ℤ) ^ 23) hs0
          · have hslo2 : (2 : ℚ) ^ (Int.log 2 |s|) ≤ -s := hslo.trans_eq (abs_of_neg hneg)
            linarith
          · rw [hes]
            rw [show Int.log 2 |s| = 23 + (Int.log 2 |s| - 23) by ring]
            rw [zpow_add₀ (by norm_num : (2 : ℚ) ≠ 0)]
            rw [show (23 : ℤ) + (Int.log 2 |s| - 23) - 23 = Int.log 2 |s| - 23 by ring]
            push_cast
            norm_num
        have hthi2 : -t < (2 : ℚ) ^ (Int.log 2 |t| + 1) :=
          lt_of_eq_of_lt (abs_of_neg htneg).symm hthi
        linarith
  · have htpos : 0 < t := lt_of_lt_of_le hpos h
    have ht0 : t ≠ 0 := htpos.ne'
    have habs : |s| ≤ |t| := by
      rw [abs_of_pos htpos, abs_of_pos hpos]; exact h
    have hlog : Int.log 2 |s| ≤ Int.log 2 |t| :=
      Int.log_mono_right (abs_pos.2 hs0) habs
    have he : max (Int.log 2 |s|) (-126) ≤ max (Int.log 2 |t|) (-126) :=
      max_le_max hlog le_rfl
    obtain ⟨k, hk⟩ := float_multiple t ht ht0 _ he
    exact roundF32_le_of_multiple s t k hs0 h hk

theorem f32add_le_of_exact_le (a b t : ℚ) (ht : roundF32 t = t) (h : a + b ≤ t) :
    f32add a b ≤ t :=
  roundF32_le_of_le_float (a + b) t ht h

/-- The time 1/4 is a `float`. -/
theorem roundF32_quarter : roundF32 (1 / 4) = 1 / 4 := by
  rw [roundF32_of_near (1 / 4) (-2) 8388608 (by norm_num) (by norm_num [abs_of_pos])
    (by norm_num [abs_of_pos]) (by norm_num) (by norm_num [abs_lt])]
  norm_num

/-- The `float` sum `0 + 0.2` is `0.2f`. -/
theorem f32add_walk_window : f32add 0 (1 / 5) = 13421773 / 67108864 := by
  unfold f32add
  rw [roundF32_of_near (0 + 1 / 5) (-3) 13421773 (by norm_num) (by norm_num [abs_of_pos])
    (by norm_num [abs_of_pos]) (by norm_num) (by norm_num [abs_lt])]
  norm_num

/-- The `float` sum `3600 + 0.2f` is 3600.199951171875, below the exact sum. -/
theorem f32add_late_window : f32add 3600 (13421773 / 67108864) = 14746419 / 4096 := by
  unfold f32add
  rw [roundF32_of_near _ 11 14746419 (by norm_num) (by norm_num [abs_of_pos])
    (by norm_num [abs_of_pos]) (by norm_num) (by norm_num [abs_lt])]
  norm_num

theorem mapFind_eq_none_iff (l : List (String × Nat)) (key : String) :
    mapFind l key = none ↔ ∀ i, (key, i) ∉ l := by
  induction l with
  | nil => simp [mapFind]
  | cons p rest ih =>
    obtain ⟨k, v⟩ := p
    by_cases hk : k = key
    · subst hk
      simp only [mapFind, if_true]
      constructor
      · intro h; cases h
      · intro h; exact absurd (List.mem_cons_self _ _) (h v)
    · simp only [mapFind, if_neg hk, ih]
      constructor
      · intro h i hi
        rcases List.mem_cons.1 hi with h1 | h1
        · exact hk (by injection h1 with h2 h3; exact h2.symm)
        · exact h i h1
      · intro h i hi
        exact h i (List.mem_cons_of_mem _ hi)

theorem changeAnimation_error (m : AnimatedMesh) (i : Nat) (info : AnimInfo) (t tt : ℚ)
    (flags : Nat) (speed : ℚ) (h : m.anims_.data[i]? = some info) :
    (changeAnimation m i t tt flags speed).error = none := by
  simp [changeAnimation, h]

theorem changeAnimation_anims (m : AnimatedMesh) (i : Nat) (t tt : ℚ)
    (flags : Nat) (speed : ℚ) :
    (changeAnimation m i t tt flags speed).mesh.anims_ = m.anims_ := by
  unfold changeAnimation
  cases m.anims_.data[i]? <;> rfl

theorem changeAnimation_current_idx (m : AnimatedMesh) (i : Nat) (info : AnimInfo) (t tt : ℚ)
    (flags : Nat) (speed : ℚ) (h : m.anims_.data[i]? = some info) :
    (changeAnimation m i t tt flags speed).mesh.current_anim_.idx = i ∧
    (changeAnimation m i t tt flags speed).mesh.current_anim_.handle = info.handle  := by
  simp only [changeAnimation, h]
  split_ifs <;> simp

theorem walkLoaded_eq :
    addAnimation freshMesh (walkImport 1) "walk.dae" "walk" repeatInterruptable 1
      = ⟨walkLoaded, none⟩ := by
  simp [walkLoaded, addAnimation, freshMesh, walkImport, Animations.canFind, mapFind, mapSet,
    Animations.modify, repeatInterruptable, Vec3.zero]

theorem walkPlaying_eq :
    forceCurrentAnimation walkLoaded "walk" 0 (1 / 5) repeatInterruptable 1
      = ⟨walkPlaying, none⟩ := by
  have h1 : hasFlag 9 AnimFlag.Backwards = false := by decide
  have h2 : hasFlag 9 AnimFlag.Mirrored = false := by decide
  simp [walkPlaying, walkLoaded, forceCurrentAnimation, changeAnimation, mapFind, h1, h2,
    repeatInterruptable, Vec3.zero]

theorem forceCurrentAnimation_of_diff (m : AnimatedMesh) (name : String) (i : Nat)
    (info : AnimInfo) (t tt : ℚ) (flags : Nat) (speed : ℚ)
    (hname : mapFind m.anims_.names name = some i)
    (hclip : m.anims_.data[i]? = some info)
    (hdiff : info.handle ≠ m.current_anim_.handle) :
    forceCurrentAnimation m name t tt flags speed
      = changeAnimation m i t tt flags (if |speed| < 1 / 100000 then info.speed else speed) := by
  have hne : ¬ m.current_anim_.handle = info.handle := fun h => hdiff h.symm
  simp only [forceCurrentAnimation, hname, hclip, if_neg hne]
  split_ifs <;> rfl

theorem forceCurrentAnimation_noflags_of_diff (m : AnimatedMesh) (name : String) (i : Nat)
    (info : AnimInfo) (t tt : ℚ) (speed : ℚ)
    (hname : mapFind m.anims_.names name = some i)
    (hclip : m.anims_.data[i]? = some info)
    (hdiff : info.handle ≠ m.current_anim_.handle) :
    forceCurrentAnimation_noflags m name t tt speed
      = changeAnimation m i t tt info.flags
          (if |speed| < 1 / 100000 then info.speed else speed) := by
  have hne : ¬ m.current_anim_.handle = info.handle := fun h => hdiff h.symm
  simp only [forceCurrentAnimation_noflags, hname, hclip, if_neg hne]
  split_ifs <;> rfl

theorem changeAnimation_speed_flags (m : AnimatedMesh) (i : Nat) (info : AnimInfo) (t tt : ℚ)
    (flags : Nat) (speed : ℚ) (h : m.anims_.data[i]? = some info) :
    (changeAnimation m i t tt flags speed).mesh.current_anim_.speed
      = (if speed > 0 then speed else -speed) ∧
    (changeAnimation m i t tt flags speed).mesh.current_anim_.flags
      = (if speed > 0 then flags else flags ^^^ AnimFlag.Backwards) := by
  simp only [changeAnimation, h]
  split_ifs <;> simp

/-! ## Forced and requested transitions -/

/-- C1: forcing the clip that is already playing changes nothing.  If `name` resolves to a
registry clip whose handle is the handle of the current state, then both overloads of
`forceCurrentAnimation` return normally and leave the whole mesh (current state, previous
state, transition metadata, registry) as it was, whatever the time, transition time, flags
and speed. -/
theorem forceCurrentAnimation_self_noop (m : AnimatedMesh) (name : String) (i : Nat)
    (info : AnimInfo) (t tt : ℚ) (flags : Nat) (speed : ℚ)
    (hname : mapFind m.anims_.names name = some i)
    (hclip : m.anims_.data[i]? = some info)
    (hsame : info.handle = m.current_anim_.handle) :
    forceCurrentAnimation m name t tt flags speed = ⟨m, none⟩ ∧
    forceCurrentAnimation_noflags m name t tt speed = ⟨m, none⟩ := by
  simp [forceCurrentAnimation, forceCurrentAnimation_noflags, hname, hclip, hsame]

/-- Witness of C1 in the "walk" scenario: forcing "walk" again at time 1 leaves the mesh as it
was, and `end_of_last_anim` is still 0. -/
theorem forceCurrentAnimation_self_noop_witness :
    (mapFind walkPlaying.anims_.names "walk" = some 0 ∧
      walkPlaying.anims_.data[0]? = some ⟨1, ⟨0, 0, 0⟩, ⟨0, 0, 2⟩, 9, 1⟩ ∧
      (1 : Nat) = walkPlaying.current_anim_.handle) ∧
    (forceCurrentAnimation walkPlaying "walk" 1 (1 / 5) repeatInterruptable 1
        = ⟨walkPlaying, none⟩ ∧
      forceCurrentAnimation_noflags walkPlaying "walk" 1 (1 / 5) 1 = ⟨walkPlaying, none⟩) ∧
    (forceCurrentAnimation walkPlaying "walk" 1 (1 / 5) repeatInterruptable 1
      ).mesh.anim_meta_info_.end_of_last_anim = 0 :=
  have h := forceCurrentAnimation_self_noop walkPlaying "walk" 0
    ⟨1, ⟨0, 0, 0⟩, ⟨0, 0, 2⟩, 9, 1⟩ 1 (1 / 5) repeatInterruptable 1 rfl rfl rfl
  ⟨⟨rfl, rfl, rfl⟩, h, by rw [h.1]; rfl⟩

theorem walkJumpLate_eq :
    forceCurrentAnimation walkJumpLoaded "walk" 3600 (13421773 / 67108864) repeatInterruptable 1
      = ⟨walkJumpLate, none⟩ := by
  have h1 : hasFlag 9 AnimFlag.Backwards = false := by decide
  have h2 : hasFlag 9 AnimFlag.Mirrored = false := by decide
  simp [walkJumpLate, walkJumpLoaded, forceCurrentAnimation, changeAnimation, mapFind, h1,
    h2, repeatInterruptable, Vec3.zero]

/-- C2, counterexample: a request made before the exact sum
`end_of_last_anim + transition_time` is not always ignored, because the code compares the
time with the `float` sum.  One hour in (`end_of_last_anim = 3600`, `transition_time = 0.2f`,
current clip "walk" with Interruptable) the exact sum is 3600.2000000029..., the `float` sum is
3600.199951171875; a request for "jump" at time 3600.199951171875 lies before the exact sum,
yet it is accepted: the mesh changes and the current handle becomes that of "jump". -/
theorem request_before_exact_window_end_accepted :
    ((14746419 / 4096 : ℚ) < walkJumpLate.anim_meta_info_.end_of_last_anim
        + walkJumpLate.anim_meta_info_.transition_time) ∧
    (setCurrentAnimation walkJumpLate "jump" (14746419 / 4096) (13421773 / 67108864) 8 1
      ).mesh.current_anim_.handle = 2 ∧
    setCurrentAnimation walkJumpLate "jump" (14746419 / 4096) (13421773 / 67108864) 8 1
      ≠ ⟨walkJumpLate, none⟩ := by
  have hex : (14746419 / 4096 : ℚ) < walkJumpLate.anim_meta_info_.end_of_last_anim
      + walkJumpLate.anim_meta_info_.transition_time := by
    simp only [walkJumpLate]; norm_num
  have hg : f32add walkJumpLate.anim_meta_info_.end_of_last_anim
        walkJumpLate.anim_meta_info_.transition_time ≤ (14746419 / 4096 : ℚ)
      ∧ hasFlag walkJumpLate.current_anim_.flags AnimFlag.Interruptable = true := by
    refine ⟨?_, by decide⟩
    simp only [walkJumpLate]
    rw [f32add_late_window]
  have hs : setCurrentAnimation walkJumpLate "jump" (14746419 / 4096)
      (13421773 / 67108864) 8 1
      = forceCurrentAnimation walkJumpLate "jump" (14746419 / 4096)
          (13421773 / 67108864) 8 1 := by
    simp only [setCurrentAnimation, if_pos hg]
  have hh : (setCurrentAnimation walkJumpLate "jump" (14746419 / 4096)
      (13421773 / 67108864) 8 1).mesh.current_anim_.handle = 2 := by
    rw [hs, forceCurrentAnimation_of_diff walkJumpLate "jump" 1
      ⟨2, ⟨0, 0, 0⟩, ⟨0, 0, 2⟩, 8, 1⟩ _ _ _ _ rfl rfl (by decide)]
    exact (changeAnimation_current_idx walkJumpLate 1 ⟨2, ⟨0, 0, 0⟩, ⟨0, 0, 2⟩, 8, 1⟩
      _ _ _ _ rfl).2
  refine ⟨hex, hh, ?_⟩
  intro h
  rw [h] at hh
  exact absurd hh (by decide)

/-- C2, amended: a soft request whose guard fails is a silent no-op.  If the time of the call
lies before the `float` sum `end_of_last_anim + transition_time` that the code computes
(`f32add`), or the flags of the current state lack Interruptable, then both overloads of
`setCurrentAnimation` return normally, for a known or an unknown name alike, and leave the
whole mesh as it was. -/
theorem setCurrentAnimation_guard_noop (m : AnimatedMesh) (name : String) (t tt : ℚ)
    (flags : Nat) (speed : ℚ)
    (hguard :
      t < f32add m.anim_meta_info_.end_of_last_anim m.anim_meta_info_.transition_time ∨
      m.current_anim_.flags &&& AnimFlag.Interruptable = 0) :
    setCurrentAnimation m name t tt flags speed = ⟨m, none⟩ ∧
    setCurrentAnimation_noflags m name t tt speed = ⟨m, none⟩ := by
  have hfail :
      ¬ (f32add m.anim_meta_info_.end_of_last_anim m.anim_meta_info_.transition_time ≤ t
        ∧ hasFlag m.current_anim_.flags AnimFlag.Interruptable = true) := by
    rintro ⟨hle, hflag⟩
    rcases hguard with hlt | hz
    · exact absurd hle (not_le.2 hlt)
    · simp [hasFlag, hz] at hflag
  simp only [setCurrentAnimation, setCurrentAnimation_noflags, if_neg hfail, and_self]

/-- Witness of C2 as amended: in the "walk" scenario the `float` sum `0 + 0.2` is `0.2f`; a
request for an unknown clip at time 1/10, before it, is ignored without an error. -/
theorem setCurrentAnimation_guard_noop_witness :
    ((1 / 10 : ℚ) < f32add walkPlaying.anim_meta_info_.end_of_last_anim
        walkPlaying.anim_meta_info_.transition_time ∨
      walkPlaying.current_anim_.flags &&& AnimFlag.Interruptable = 0) ∧
    (setCurrentAnimation walkPlaying "run" (1 / 10) (1 / 5) 0 1 = ⟨walkPlaying, none⟩ ∧
      setCurrentAnimation_noflags walkPlaying "run" (1 / 10) (1 / 5) 1 = ⟨walkPlaying, none⟩) :=
  have hg : (1 / 10 : ℚ) < f32add walkPlaying.anim_meta_info_.end_of_last_anim
      walkPlaying.anim_meta_info_.transition_time := by
    simp only [walkPlaying]
    rw [f32add_walk_window]
    norm_num
  ⟨Or.inl hg, setCurrentAnimation_guard_noop walkPlaying "run" (1 / 10) (1 / 5) 0 1 (Or.inl hg)⟩

/-- C3: forcing a different clip always succeeds.  If `name` resolves to a registry clip whose
handle differs from the handle of the current state, then `forceCurrentAnimation` (either
overload) returns normally, and afterwards the current state carries that clip's handle and
index.  Nothing is asked of the flags of the clip being replaced. -/
theorem forceCurrentAnimation_switches (m : AnimatedMesh) (name : String) (i : Nat)
    (info : AnimInfo) (t tt : ℚ) (flags : Nat) (speed : ℚ)
    (hname : mapFind m.anims_.names name = some i)
    (hclip : m.anims_.data[i]? = some info)
    (hdiff : info.handle ≠ m.current_anim_.handle) :
    ((forceCurrentAnimation m name t tt flags speed).error = none ∧
      (forceCurrentAnimation m name t tt flags speed).mesh.current_anim_.handle = info.handle ∧
      (forceCurrentAnimation m name t tt flags speed).mesh.current_anim_.idx = i) ∧
    ((forceCurrentAnimation_noflags m name t tt speed).error = none ∧
      (forceCurrentAnimation_noflags m name t tt speed).mesh.current_anim_.handle
        = info.handle ∧
      (forceCurrentAnimation_noflags m name t tt speed).mesh.current_anim_.idx = i) := by
  have hne : ¬ m.current_anim_.handle = info.handle := fun h => hdiff h.symm
  simp only [forceCurrentAnimation, forceCurrentAnimation_noflags, hname, hclip, if_neg hne]
  constructor <;> split_ifs <;>
    exact ⟨changeAnimation_error m i info _ _ _ _ hclip,
      (changeAnimation_current_idx m i info _ _ _ _ hclip).2,
      (changeAnimation_current_idx m i info _ _ _ _ hclip).1⟩

/-- Witness of C3: on the freshly loaded "walk" mesh (current handle null, clip handle 1) the
forced transition to "walk" succeeds. -/
theorem forceCurrentAnimation_switches_witness :
    (mapFind walkLoaded.anims_.names "walk" = some 0 ∧
      walkLoaded.anims_.data[0]? = some ⟨1, ⟨0, 0, 0⟩, ⟨0, 0, 2⟩, 9, 1⟩ ∧
      (1 : Nat) ≠ walkLoaded.current_anim_.handle) ∧
    (forceCurrentAnimation walkLoaded "walk" 0 (1 / 5) 9 1).error = none ∧
    (forceCurrentAnimation walkLoaded "walk" 0 (1 / 5) 9 1).mesh.current_anim_.handle = 1 ∧
    (forceCurrentAnimation walkLoaded "walk" 0 (1 / 5) 9 1).mesh.current_anim_.idx = 0 :=
  ⟨⟨rfl, rfl, by decide⟩,
    (forceCurrentAnimation_switches walkLoaded "walk" 0 ⟨1, ⟨0, 0, 0⟩, ⟨0, 0, 2⟩, 9, 1⟩
      0 (1 / 5) 9 1 rfl rfl (by decide)).1⟩

/-- C4: `forceCurrentAnimation` (either overload) ends with UnknownAnimationName exactly when
the name is not a key of the registry, and when it does the whole mesh (current state, previous
state, transition metadata, registry) is as it was before the call. -/
theorem forceCurrentAnimation_unknown_iff (m : AnimatedMesh) (name : String) (t tt : ℚ)
    (flags : Nat) (speed : ℚ) :
    (((forceCurrentAnimation m name t tt flags speed).error
          = some Error.UnknownAnimationName ↔ ∀ i, (name, i) ∉ m.anims_.names) ∧
      ((forceCurrentAnimation m name t tt flags speed).error
          = some Error.UnknownAnimationName →
        (forceCurrentAnimation m name t tt flags speed).mesh = m)) ∧
    (((forceCurrentAnimation_noflags m name t tt speed).error
          = some Error.UnknownAnimationName ↔ ∀ i, (name, i) ∉ m.anims_.names) ∧
      ((forceCurrentAnimation_noflags m name t tt speed).error
          = some Error.UnknownAnimationName →
        (forceCurrentAnimation_noflags m name t tt speed).mesh = m)) := by
  rw [← mapFind_eq_none_iff]
  cases hname : mapFind m.anims_.names name with
  | none => simp [forceCurrentAnimation, forceCurrentAnimation_noflags, hname]
  | some i =>
    cases hclip : m.anims_.data[i]? with
    | none => simp [forceCurrentAnimation, forceCurrentAnimation_noflags, hname, hclip]
    | some info =>
      simp only [forceCurrentAnimation, forceCurrentAnimation_noflags, hname, hclip]
      refine ⟨?_, ?_⟩ <;> split_ifs <;>
        simp [changeAnimation_error m i info _ _ _ _ hclip]

/-- C5: a negative speed is stored as its absolute value with the Backwards bit toggled.  If
`name` resolves to a registry clip whose handle differs from the current one and
`speed ≤ -1e-5`, then after `forceCurrentAnimation` the current state has speed `-speed`, which
is `|speed|`, and flags `flags ^ Backwards`. -/
theorem forceCurrentAnimation_negative_speed (m : AnimatedMesh) (name : String) (i : Nat)
    (info : AnimInfo) (t tt : ℚ) (flags : Nat) (speed : ℚ)
    (hname : mapFind m.anims_.names name = some i)
    (hclip : m.anims_.data[i]? = some info)
    (hdiff : info.handle ≠ m.current_anim_.handle)
    (hspeed : speed ≤ -(1 / 100000)) :
    (forceCurrentAnimation m name t tt flags speed).mesh.current_anim_.speed = -speed ∧
    (forceCurrentAnimation m name t tt flags speed).mesh.current_anim_.speed = |speed| ∧
    (forceCurrentAnimation m name t tt flags speed).mesh.current_anim_.flags
      = flags ^^^ AnimFlag.Backwards := by
  have hneg : speed < 0 := lt_of_le_of_lt hspeed (by norm_num)
  have habs : |speed| = -speed := abs_of_neg hneg
  have hbig : ¬ |speed| < 1 / 100000 := by
    rw [habs]; intro h; linarith
  have hpos : ¬ speed > 0 := not_lt.2 hneg.le
  rw [forceCurrentAnimation_of_diff m name i info t tt flags speed hname hclip hdiff,
    if_neg hbig, habs]
  have h := changeAnimation_speed_flags m i info t tt flags speed hclip
  rw [if_neg hpos, if_neg hpos] at h
  exact ⟨h.1, h.1, h.2⟩

/-- Witness of C5: with `flags = 0` and `speed = -2` the current state ends with speed 2 and
the Backwards flag set. -/
theorem forceCurrentAnimation_negative_speed_witness :
    (mapFind walkLoaded.anims_.names "walk" = some 0 ∧
      walkLoaded.anims_.data[0]? = some ⟨1, ⟨0, 0, 0⟩, ⟨0, 0, 2⟩, 9, 1⟩ ∧
      (1 : Nat) ≠ walkLoaded.current_anim_.handle ∧ (-2 : ℚ) ≤ -(1 / 100000)) ∧
    (forceCurrentAnimation walkLoaded "walk" 0 (1 / 5) 0 (-2)).mesh.current_anim_.speed = 2 ∧
    hasFlag (forceCurrentAnimation walkLoaded "walk" 0 (1 / 5) 0 (-2)).mesh.current_anim_.flags
      AnimFlag.Backwards = true :=
  have h := forceCurrentAnimation_negative_speed walkLoaded "walk" 0
    ⟨1, ⟨0, 0, 0⟩, ⟨0, 0, 2⟩, 9, 1⟩ 0 (1 / 5) 0 (-2) rfl rfl (by decide) (by norm_num)
  ⟨⟨rfl, rfl, by decide, by norm_num⟩, by rw [h.1]; norm_num, by rw [h.2.2]; decide⟩

/-- Witness of C4: on the "walk" mesh the unknown name "run" ends both overloads with
UnknownAnimationName and leaves the mesh as it was. -/
theorem forceCurrentAnimation_unknown_iff_witness :
    (∀ i, ("run", i) ∉ walkPlaying.anims_.names) ∧
    (forceCurrentAnimation walkPlaying "run" 1 (1 / 5) 0 1).error
      = some Error.UnknownAnimationName ∧
    (forceCurrentAnimation walkPlaying "run" 1 (1 / 5) 0 1).mesh = walkPlaying :=
  have hkey : ∀ i, ("run", i) ∉ walkPlaying.anims_.names := by
    intro i; simp [walkPlaying]
  have h := (forceCurrentAnimation_unknown_iff walkPlaying "run" 1 (1 / 5) 0 1).1
  ⟨hkey, h.1.2 hkey, h.2 (h.1.2 hkey)⟩

/-! ## Root motion -/

/-- C6: `offsetSinceLastFrame` returns the x and z components of
`current_anim_.offset - last_anim_.offset`, copies the current offset into `last_anim_.offset`
and leaves everything else as it was (registry, transition metadata, current state, and the
index, handle, speed and flags of the previous state); so a second call made right after the
first returns (0, 0). -/
theorem offsetSinceLastFrame_consumes (m : AnimatedMesh) :
    (offsetSinceLastFrame m).1
      = ⟨m.current_anim_.offset.x - m.last_anim_.offset.x,
         m.current_anim_.offset.z - m.last_anim_.offset.z⟩ ∧
    (offsetSinceLastFrame m).2.last_anim_.offset = m.current_anim_.offset ∧
    ((offsetSinceLastFrame m).2.anims_ = m.anims_ ∧
      (offsetSinceLastFrame m).2.anim_meta_info_ = m.anim_meta_info_ ∧
      (offsetSinceLastFrame m).2.current_anim_ = m.current_anim_ ∧
      (offsetSinceLastFrame m).2.last_anim_.idx = m.last_anim_.idx ∧
      (offsetSinceLastFrame m).2.last_anim_.handle = m.last_anim_.handle ∧
      (offsetSinceLastFrame m).2.last_anim_.speed = m.last_anim_.speed ∧
      (offsetSinceLastFrame m).2.last_anim_.flags = m.last_anim_.flags) ∧
    (offsetSinceLastFrame (offsetSinceLastFrame m).2).1 = ⟨0, 0⟩ := by
  simp [offsetSinceLastFrame, Vec3.sub]

theorem Vec3.scale_neg_one (v : Vec3) : v.scale (-1) = v.neg := by
  simp [Vec3.scale, Vec3.neg]

theorem changeAnimation_current_offset (m : AnimatedMesh) (i : Nat) (info : AnimInfo)
    (t tt : ℚ) (flags : Nat) (speed : ℚ) (h : m.anims_.data[i]? = some info) :
    (changeAnimation m i t tt flags speed).mesh.current_anim_.offset
      = if flags &&& AnimFlag.Mirrored = 0 then
          (if flags &&& AnimFlag.Backwards = 0 then info.start_offset else info.end_offset)
        else
          (if flags &&& AnimFlag.Backwards = 0 then info.start_offset
            else info.end_offset).neg := by
  simp only [changeAnimation, h, hasFlag, bne_iff_ne, ne_eq, Vec3.scale_neg_one]
  split_ifs <;> simp_all

theorem changeAnimation_last_first (m : AnimatedMesh) (i : Nat) (info : AnimInfo)
    (t tt : ℚ) (flags : Nat) (speed : ℚ) (h : m.anims_.data[i]? = some info)
    (hfirst : m.last_anim_.handle = 0) :
    (changeAnimation m i t tt flags speed).mesh.last_anim_
      = { (changeAnimation m i t tt flags speed).mesh.current_anim_ with
            offset := Vec3.zero } := by
  simp only [changeAnimation, h, hfirst]
  simp

/-- C7: the first-ever transition.  If the previous state's handle is null and `name`
resolves to a registry clip whose handle differs from the current one, then after
`forceCurrentAnimation` the previous state has the index, handle, speed and flags of the new
current state and the zero vector as offset, while the current offset is the clip's
`start_offset` (its `end_offset` if the requested flags have Backwards), negated if the
requested flags have Mirrored. -/
theorem forceCurrentAnimation_first_transition (m : AnimatedMesh) (name : String) (i : Nat)
    (info : AnimInfo) (t tt : ℚ) (flags : Nat) (speed : ℚ)
    (hname : mapFind m.anims_.names name = some i)
    (hclip : m.anims_.data[i]? = some info)
    (hdiff : info.handle ≠ m.current_anim_.handle)
    (hfirst : m.last_anim_.handle = 0) :
    ((forceCurrentAnimation m name t tt flags speed).mesh.last_anim_.idx
        = (forceCurrentAnimation m name t tt flags speed).mesh.current_anim_.idx ∧
      (forceCurrentAnimation m name t tt flags speed).mesh.last_anim_.handle
        = (forceCurrentAnimation m name t tt flags speed).mesh.current_anim_.handle ∧
      (forceCurrentAnimation m name t tt flags speed).mesh.last_anim_.speed
        = (forceCurrentAnimation m name t tt flags speed).mesh.current_anim_.speed ∧
      (forceCurrentAnimation m name t tt flags speed).mesh.last_anim_.flags
        = (forceCurrentAnimation m name t tt flags speed).mesh.current_anim_.flags) ∧
    (forceCurrentAnimation m name t tt flags speed).mesh.last_anim_.offset = Vec3.zero ∧
    (forceCurrentAnimation m name t tt flags speed).mesh.current_anim_.offset
      = if flags &&& AnimFlag.Mirrored = 0 then
          (if flags &&& AnimFlag.Backwards = 0 then info.start_offset else info.end_offset)
        else
          (if flags &&& AnimFlag.Backwards = 0 then info.start_offset
            else info.end_offset).neg := by
  rw [forceCurrentAnimation_of_diff m name i info t tt flags speed hname hclip hdiff]
  refine ⟨?_, ?_, changeAnimation_current_offset m i info t tt flags _ hclip⟩
  · rw [changeAnimation_last_first m i info t tt flags _ hclip hfirst]
    exact ⟨rfl, rfl, rfl, rfl⟩
  · rw [changeAnimation_last_first m i info t tt flags _ hclip hfirst]

/-- Witness of C7 in the "walk" scenario: after the first forced transition both offsets are
(0,0,0); once the current offset has been advanced to (0,0,1/2) the displacement read is
(0, 1/2). -/
theorem forceCurrentAnimation_first_transition_witness :
    (mapFind walkLoaded.anims_.names "walk" = some 0 ∧
      walkLoaded.anims_.data[0]? = some ⟨1, ⟨0, 0, 0⟩, ⟨0, 0, 2⟩, 9, 1⟩ ∧
      (1 : Nat) ≠ walkLoaded.current_anim_.handle ∧ walkLoaded.last_anim_.handle = 0) ∧
    ((forceCurrentAnimation walkLoaded "walk" 0 (1 / 5) repeatInterruptable 1
        ).mesh.current_anim_.offset = ⟨0, 0, 0⟩ ∧
      (forceCurrentAnimation walkLoaded "walk" 0 (1 / 5) repeatInterruptable 1
        ).mesh.last_anim_.offset = ⟨0, 0, 0⟩) ∧
    (offsetSinceLastFrame
        { (forceCurrentAnimation walkLoaded "walk" 0 (1 / 5) repeatInterruptable 1).mesh with
          current_anim_ :=
            { (forceCurrentAnimation walkLoaded "walk" 0 (1 / 5) repeatInterruptable 1
                ).mesh.current_anim_ with offset := ⟨0, 0, 1 / 2⟩ } }).1 = ⟨0, 1 / 2⟩ :=
  have h := forceCurrentAnimation_first_transition walkLoaded "walk" 0
    ⟨1, ⟨0, 0, 0⟩, ⟨0, 0, 2⟩, 9, 1⟩ 0 (1 / 5) repeatInterruptable 1 rfl rfl (by decide) rfl
  have hm : (9 : Nat) &&& AnimFlag.Mirrored = 0 := by decide
  have hb : (9 : Nat) &&& AnimFlag.Backwards = 0 := by decide
  ⟨⟨rfl, rfl, by decide, rfl⟩,
    ⟨by rw [h.2.2]; simp [repeatInterruptable, hm, hb], by rw [h.2.1]; rfl⟩,
    by rw [walkPlaying_eq]; simp [offsetSinceLastFrame, Vec3.sub, walkPlaying]⟩

/-! ## The default clip -/

theorem walkJumpLoaded_eq :
    addAnimation walkLoaded (walkImport 2) "jump.dae" "jump" AnimFlag.Interruptable 1
      = ⟨walkJumpLoaded, none⟩ := by
  simp [walkJumpLoaded, walkLoaded, addAnimation, walkImport, Animations.canFind, mapFind,
    mapSet, Animations.modify, AnimFlag.Interruptable, Vec3.zero]

/-- C8, evaluated at the failing input: `setDefaultAnimation` writes `default_idx` and
`default_transition_time` before it tests the Repeat flag.  With "walk" (Repeat) as default,
the call `setDefaultAnimation("jump", 1/2)` on a clip without Repeat ends with
InvalidDefaultFlag, yet afterwards `default_idx` is the index of "jump", whose flags lack
Repeat, and the assertion of `forceAnimToDefault` fails. -/
theorem setDefaultAnimation_failure_keeps_default :
    setDefaultAnimation walkJumpLoaded "walk" (1 / 5) = ⟨walkDefault, none⟩ ∧
    setDefaultAnimation walkDefault "jump" (1 / 2)
      = ⟨jumpDefault, some Error.InvalidDefaultFlag⟩ ∧
    jumpDefault.anim_meta_info_.default_idx = 1 ∧
    jumpDefault.anims_.data[1]? = some ⟨2, ⟨0, 0, 0⟩, ⟨0, 0, 2⟩, 8, 1⟩ ∧
    (8 : Nat) &&& AnimFlag.Repeat = 0 ∧
    forceAnimToDefault jumpDefault 1 = ⟨jumpDefault, some Error.AssertionFailed⟩ := by
  have h9 : hasFlag 9 AnimFlag.Repeat = true := by decide
  have h8 : hasFlag 8 AnimFlag.Repeat = false := by decide
  refine ⟨?_, ?_, rfl, rfl, by decide, ?_⟩
  · simp [setDefaultAnimation, walkJumpLoaded, walkDefault, mapFind, h9]
  · simp [setDefaultAnimation, walkJumpLoaded, walkDefault, jumpDefault, mapFind, h8]
  · simp [forceAnimToDefault, walkJumpLoaded, jumpDefault, h8]

/-- C9: `setDefaultAnimation` ends with UnknownAnimationName exactly when the name is not a
key of the registry, with InvalidDefaultFlag exactly when the name resolves to a clip whose
stored flags lack Repeat, and returns normally exactly when the name resolves to a clip that
has Repeat; in that last case `default_idx` is the clip's index and
`default_transition_time` is the argument. -/
theorem setDefaultAnimation_outcomes (m : AnimatedMesh) (name : String) (dtt : ℚ) :
    ((setDefaultAnimation m name dtt).error = some Error.UnknownAnimationName
      ↔ ∀ i, (name, i) ∉ m.anims_.names) ∧
    ((setDefaultAnimation m name dtt).error = some Error.InvalidDefaultFlag
      ↔ ∃ i info, mapFind m.anims_.names name = some i ∧ m.anims_.data[i]? = some info ∧
          info.flags &&& AnimFlag.Repeat = 0) ∧
    ((setDefaultAnimation m name dtt).error = none
      ↔ ∃ i info, mapFind m.anims_.names name = some i ∧ m.anims_.data[i]? = some info ∧
          info.flags &&& AnimFlag.Repeat ≠ 0) ∧
    (∀ i info, mapFind m.anims_.names name = some i → m.anims_.data[i]? = some info →
      info.flags &&& AnimFlag.Repeat ≠ 0 →
      (setDefaultAnimation m name dtt).error = none ∧
      (setDefaultAnimation m name dtt).mesh.anim_meta_info_.default_idx = i ∧
      (setDefaultAnimation m name dtt).mesh.anim_meta_info_.default_transition_time = dtt) := by
  rw [← mapFind_eq_none_iff]
  cases hname : mapFind m.anims_.names name with
  | none => simp [setDefaultAnimation, hname]
  | some i =>
    cases hclip : m.anims_.data[i]? with
    | none =>
      simp [setDefaultAnimation, hname, hclip]
      intro j info2 hj h2
      subst hj
      rw [hclip] at h2
      cases h2
    | some info =>
      by_cases hrep : info.flags &&& AnimFlag.Repeat = 0
      · simp [setDefaultAnimation, hname, hclip, hasFlag, hrep]
        intro j info2 hj h2
        subst hj
        rw [hclip] at h2
        injection h2 with h2
        subst h2
        exact hrep
      · simp [setDefaultAnimation, hname, hclip, hasFlag, hrep]
        intro j _ hj _ _
        exact hj

/-- Witness of C9: on the "walk" mesh, `setDefaultAnimation("walk", 1/5)` returns normally
with `default_idx = 0` and `default_transition_time = 1/5`. -/
theorem setDefaultAnimation_outcomes_witness :
    (mapFind walkLoaded.anims_.names "walk" = some 0 ∧
      walkLoaded.anims_.data[0]? = some ⟨1, ⟨0, 0, 0⟩, ⟨0, 0, 2⟩, 9, 1⟩ ∧
      (9 : Nat) &&& AnimFlag.Repeat ≠ 0) ∧
    (setDefaultAnimation walkLoaded "walk" (1 / 5)).error = none ∧
    (setDefaultAnimation walkLoaded "walk" (1 / 5)).mesh.anim_meta_info_.default_idx = 0 ∧
    (setDefaultAnimation walkLoaded "walk" (1 / 5)).mesh.anim_meta_info_.default_transition_time
      = 1 / 5 :=
  ⟨⟨rfl, rfl, by decide⟩,
    (setDefaultAnimation_outcomes walkLoaded "walk" (1 / 5)).2.2.2 0
      ⟨1, ⟨0, 0, 0⟩, ⟨0, 0, 2⟩, 9, 1⟩ rfl rfl (by decide)⟩

/-! ## The registry -/

theorem mapSet_of_absent (l : List (String × Nat)) (key : String) (val : Nat)
    (h : mapFind l key = none) : mapSet l key val = l ++ [(key, val)] := by
  induction l with
  | nil => rfl
  | cons p rest ih =>
    obtain ⟨k, v⟩ := p
    by_cases hk : k = key
    · simp [mapFind, hk] at h
    · simp only [mapFind, if_neg hk] at h
      simp [mapSet, hk, ih h]

theorem addAnimation_names (m : AnimatedMesh) (imp : Import) (filename anim_name : String)
    (flags : Nat) (speed : ℚ) (h : mapFind m.anims_.names anim_name = none) :
    (addAnimation m imp filename anim_name flags speed).mesh.anims_.names
      = m.anims_.names ++ [(anim_name, m.anims_.data.length)] := by
  rw [← mapSet_of_absent _ _ _ h]
  simp only [addAnimation, Animations.canFind, h, Option.isSome_none, Bool.false_eq_true,
    if_false, Animations.modify]
  split_ifs
  · rfl
  · split
    · rfl
    · split <;> rfl

theorem addAnimation_of_known (m : AnimatedMesh) (imp : Import) (filename anim_name : String)
    (flags : Nat) (speed : ℚ) (h : mapFind m.anims_.names anim_name ≠ none) :
    addAnimation m imp filename anim_name flags speed = ⟨m, some Error.DuplicateName⟩ := by
  have hs : (mapFind m.anims_.names anim_name).isSome = true :=
    Option.isSome_iff_ne_none.2 h
  simp [addAnimation, Animations.canFind, hs]

theorem addAnimation_names_functional (m : AnimatedMesh) (imp : Import)
    (filename anim_name : String) (flags : Nat) (speed : ℚ)
    (hfun : ∀ name i j, (name, i) ∈ m.anims_.names → (name, j) ∈ m.anims_.names → i = j) :
    ∀ name i j,
      (name, i) ∈ (addAnimation m imp filename anim_name flags speed).mesh.anims_.names →
      (name, j) ∈ (addAnimation m imp filename anim_name flags speed).mesh.anims_.names →
      i = j := by
  by_cases h : mapFind m.anims_.names anim_name = none
  · rw [addAnimation_names m imp filename anim_name flags speed h]
    have habs := (mapFind_eq_none_iff _ _).1 h
    intro name i j hi hj
    simp only [List.mem_append, List.mem_singleton, Prod.mk.injEq] at hi hj
    rcases hi with hi | ⟨hn, hi⟩ <;> rcases hj with hj | ⟨hn2, hj⟩
    · exact hfun name i j hi hj
    · subst hn2; exact absurd hi (habs i)
    · subst hn; exact absurd hj (habs j)
    · rw [hi, hj]
  · rw [addAnimation_of_known m imp filename anim_name flags speed h]
    exact hfun

theorem addAnimations_names_functional (calls : List AddCall) :
    ∀ m : AnimatedMesh,
      (∀ name i j, (name, i) ∈ m.anims_.names → (name, j) ∈ m.anims_.names → i = j) →
      ∀ name i j, (name, i) ∈ (addAnimations m calls).anims_.names →
        (name, j) ∈ (addAnimations m calls).anims_.names → i = j := by
  induction calls with
  | nil => intro m hfun; exact hfun
  | cons c rest ih =>
    intro m hfun
    exact ih _ (addAnimation_names_functional m c.imp c.filename c.anim_name c.flags c.speed hfun)

/-- C10: `addAnimation` with a name that is already a key of the registry ends with
DuplicateName, whatever the source, flags and speed, and leaves the mesh, registry included,
as it was.  Consequently a registry in which every name has one index keeps that property
through any sequence of `addAnimation` calls, successful or not. -/
theorem addAnimation_duplicate_rejected :
    (∀ (m : AnimatedMesh) (imp : Import) (filename anim_name : String) (flags : Nat)
        (speed : ℚ) (i : Nat), (anim_name, i) ∈ m.anims_.names →
        addAnimation m imp filename anim_name flags speed = ⟨m, some Error.DuplicateName⟩) ∧
    (∀ (m : AnimatedMesh) (calls : List AddCall),
        (∀ name i j, (name, i) ∈ m.anims_.names → (name, j) ∈ m.anims_.names → i = j) →
        ∀ name i j, (name, i) ∈ (addAnimations m calls).anims_.names →
          (name, j) ∈ (addAnimations m calls).anims_.names → i = j) := by
  constructor
  · intro m imp filename anim_name flags speed i hmem
    apply addAnimation_of_known
    intro hnone
    exact (mapFind_eq_none_iff _ _).1 hnone i hmem
  · intro m calls
    exact addAnimations_names_functional calls m

/-- Witness of C10: loading a second clip under the name "walk" is rejected and leaves the
"walk" mesh as it was; and after loading "walk" twice on the fresh mesh (the second call is
rejected) every name has one index. -/
theorem addAnimation_duplicate_rejected_witness :
    (("walk", 0) ∈ walkLoaded.anims_.names ∧
      addAnimation walkLoaded (walkImport 2) "run.dae" "walk" 0 3
        = ⟨walkLoaded, some Error.DuplicateName⟩) ∧
    ((∀ name i j, (name, i) ∈ freshMesh.anims_.names → (name, j) ∈ freshMesh.anims_.names →
        i = j) ∧
      (∀ name i j,
        (name, i) ∈ (addAnimations freshMesh
          [⟨walkImport 1, "walk.dae", "walk", 9, 1⟩,
           ⟨walkImport 2, "run.dae", "walk", 0, 3⟩]).anims_.names →
        (name, j) ∈ (addAnimations freshMesh
          [⟨walkImport 1, "walk.dae", "walk", 9, 1⟩,
           ⟨walkImport 2, "run.dae", "walk", 0, 3⟩]).anims_.names → i = j)) :=
  have hmem : ("walk", 0) ∈ walkLoaded.anims_.names := by simp [walkLoaded]
  have hfresh : ∀ name i j, (name, i) ∈ freshMesh.anims_.names →
      (name, j) ∈ freshMesh.anims_.names → i = j := by
    intro name i j hi; simp [freshMesh] at hi
  ⟨⟨hmem, addAnimation_duplicate_rejected.1 walkLoaded (walkImport 2) "run.dae" "walk" 0 3 0
      hmem⟩,
    hfresh, addAnimation_duplicate_rejected.2 freshMesh _ hfresh⟩

/-! ## Shape of the outcomes -/

theorem walkJumpPlaying_eq :
    forceCurrentAnimation walkJumpLoaded "walk" 0 (1 / 5) repeatInterruptable 1
      = ⟨walkJumpPlaying, none⟩ := by
  have h1 : hasFlag 9 AnimFlag.Backwards = false := by decide
  have h2 : hasFlag 9 AnimFlag.Mirrored = false := by decide
  simp [walkJumpPlaying, walkJumpLoaded, forceCurrentAnimation, changeAnimation, mapFind, h1,
    h2, repeatInterruptable, Vec3.zero]

theorem setCurrentAnimation_of_guard (m : AnimatedMesh) (name : String) (t tt : ℚ)
    (flags : Nat) (speed : ℚ)
    (hwin : f32add m.anim_meta_info_.end_of_last_anim m.anim_meta_info_.transition_time ≤ t)
    (hint : m.current_anim_.flags &&& AnimFlag.Interruptable ≠ 0) :
    setCurrentAnimation m name t tt flags speed
      = forceCurrentAnimation m name t tt flags speed ∧
    setCurrentAnimation_noflags m name t tt speed
      = forceCurrentAnimation_noflags m name t tt speed := by
  have hg : f32add m.anim_meta_info_.end_of_last_anim m.anim_meta_info_.transition_time ≤ t
      ∧ hasFlag m.current_anim_.flags AnimFlag.Interruptable = true :=
    ⟨hwin, by simp [hasFlag, hint]⟩
  simp only [setCurrentAnimation, setCurrentAnimation_noflags, if_pos hg, and_self]

theorem setCurrentAnimation_of_not_guard (m : AnimatedMesh) (name : String) (t tt : ℚ)
    (flags : Nat) (speed : ℚ)
    (hg : ¬ (f32add m.anim_meta_info_.end_of_last_anim m.anim_meta_info_.transition_time ≤ t
      ∧ m.current_anim_.flags &&& AnimFlag.Interruptable ≠ 0)) :
    setCurrentAnimation m name t tt flags speed = ⟨m, none⟩ ∧
    setCurrentAnimation_noflags m name t tt speed = ⟨m, none⟩ := by
  have hg2 :
      ¬ (f32add m.anim_meta_info_.end_of_last_anim m.anim_meta_info_.transition_time ≤ t
        ∧ hasFlag m.current_anim_.flags AnimFlag.Interruptable = true) := by
    intro h
    exact hg ⟨h.1, by simpa [hasFlag] using h.2⟩
  simp only [setCurrentAnimation, setCurrentAnimation_noflags, if_neg hg2, and_self]

theorem forceAnimToDefault_of_repeat (m : AnimatedMesh) (info : AnimInfo) (t : ℚ)
    (hclip : m.anims_.data[m.anim_meta_info_.default_idx]? = some info)
    (hrep : info.flags &&& AnimFlag.Repeat ≠ 0) :
    forceAnimToDefault m t
      = if m.current_anim_.handle = info.handle then ⟨m, none⟩
        else changeAnimation m m.anim_meta_info_.default_idx t
          m.anim_meta_info_.default_transition_time info.flags info.speed := by
  have h : hasFlag info.flags AnimFlag.Repeat = true := by simp [hasFlag, hrep]
  simp only [forceAnimToDefault, hclip, h]
  split_ifs <;> simp_all

theorem setAnimToDefault_cases (m : AnimatedMesh) (t : ℚ) :
    setAnimToDefault m t
      = if m.current_anim_.flags &&& AnimFlag.Interruptable ≠ 0 then forceAnimToDefault m t
        else ⟨m, none⟩ := by
  simp only [setAnimToDefault, hasFlag, bne_iff_ne]

/-- Every transition call leaves either the mesh it found or the mesh of one
`changeAnimation` call made on it. -/
theorem forceCurrentAnimation_mesh_cases (m : AnimatedMesh) (name : String) (t tt : ℚ)
    (flags : Nat) (speed : ℚ) :
    ((forceCurrentAnimation m name t tt flags speed).mesh = m ∨
      ∃ i f s, (forceCurrentAnimation m name t tt flags speed).mesh
        = (changeAnimation m i t tt f s).mesh) ∧
    ((forceCurrentAnimation_noflags m name t tt speed).mesh = m ∨
      ∃ i f s, (forceCurrentAnimation_noflags m name t tt speed).mesh
        = (changeAnimation m i t tt f s).mesh) := by
  cases hname : mapFind m.anims_.names name with
  | none =>
    simp only [forceCurrentAnimation, forceCurrentAnimation_noflags, hname]
    exact ⟨Or.inl trivial, Or.inl trivial⟩
  | some i =>
    cases hclip : m.anims_.data[i]? with
    | none =>
      simp only [forceCurrentAnimation, forceCurrentAnimation_noflags, hname, hclip]
      exact ⟨Or.inl trivial, Or.inl trivial⟩
    | some info =>
      simp only [forceCurrentAnimation, forceCurrentAnimation_noflags, hname, hclip]
      constructor <;> split_ifs
      · exact Or.inl rfl
      · exact Or.inr ⟨_, _, _, rfl⟩
      · exact Or.inr ⟨_, _, _, rfl⟩
      · exact Or.inl rfl
      · exact Or.inr ⟨_, _, _, rfl⟩
      · exact Or.inr ⟨_, _, _, rfl⟩

theorem setCurrentAnimation_mesh_cases (m : AnimatedMesh) (name : String) (t tt : ℚ)
    (flags : Nat) (speed : ℚ) :
    ((setCurrentAnimation m name t tt flags speed).mesh = m ∨
      ∃ i f s, (setCurrentAnimation m name t tt flags speed).mesh
        = (changeAnimation m i t tt f s).mesh) ∧
    ((setCurrentAnimation_noflags m name t tt speed).mesh = m ∨
      ∃ i f s, (setCurrentAnimation_noflags m name t tt speed).mesh
        = (changeAnimation m i t tt f s).mesh) := by
  unfold setCurrentAnimation setCurrentAnimation_noflags
  constructor <;> split_ifs
  · exact (forceCurrentAnimation_mesh_cases m name t tt flags speed).1
  · exact Or.inl rfl
  · exact (forceCurrentAnimation_mesh_cases m name t tt flags speed).2
  · exact Or.inl rfl

theorem forceAnimToDefault_mesh_cases (m : AnimatedMesh) (t : ℚ) :
    ((forceAnimToDefault m t).mesh = m ∨
      ∃ i tt f s, (forceAnimToDefault m t).mesh = (changeAnimation m i t tt f s).mesh) ∧
    ((setAnimToDefault m t).mesh = m ∨
      ∃ i tt f s, (setAnimToDefault m t).mesh = (changeAnimation m i t tt f s).mesh) := by
  have h : (forceAnimToDefault m t).mesh = m ∨
      ∃ i tt f s, (forceAnimToDefault m t).mesh = (changeAnimation m i t tt f s).mesh := by
    cases hclip : m.anims_.data[m.anim_meta_info_.default_idx]? with
    | none =>
      simp only [forceAnimToDefault, hclip]
      exact Or.inl trivial
    | some info =>
      simp only [forceAnimToDefault, hclip]
      split_ifs
      · exact Or.inl rfl
      · exact Or.inr ⟨_, _, _, _, rfl⟩
      · exact Or.inl rfl
  refine ⟨h, ?_⟩
  unfold setAnimToDefault
  split_ifs
  · exact h
  · exact Or.inl rfl

/-! ## Transition metadata and stored speed -/

theorem changeAnimation_speed_nonneg (m : AnimatedMesh) (i : Nat) (t tt : ℚ) (flags : Nat)
    (speed : ℚ) (hc : 0 ≤ m.current_anim_.speed) (hl : 0 ≤ m.last_anim_.speed) :
    0 ≤ (changeAnimation m i t tt flags speed).mesh.current_anim_.speed ∧
    0 ≤ (changeAnimation m i t tt flags speed).mesh.last_anim_.speed := by
  cases hclip : m.anims_.data[i]? with
  | none =>
    simp only [changeAnimation, hclip]
    exact ⟨hc, hl⟩
  | some info =>
    simp only [changeAnimation, hclip]
    by_cases hs : speed > 0
    · simp only [if_pos hs]
      split_ifs <;> exact ⟨hs.le, by first | exact hs.le | exact hc⟩
    · simp only [if_neg hs]
      have hn : 0 ≤ -speed := by linarith [not_lt.1 hs]
      split_ifs <;> exact ⟨hn, by first | exact hn | exact hc⟩

/-- C12: the speeds stored on the live states stay non-negative.  If the current and the
previous state have speed `≥ 0`, then after `setCurrentAnimation`, `forceCurrentAnimation`
(both overloads each), `setAnimToDefault` or `forceAnimToDefault` they still have, whatever
the registry stores and whatever name, time, flags and speed are passed, and whether the call
switches, does nothing or fails. -/
theorem live_speeds_nonneg (m : AnimatedMesh) (name : String) (t tt : ℚ) (flags : Nat)
    (speed : ℚ) (hc : 0 ≤ m.current_anim_.speed) (hl : 0 ≤ m.last_anim_.speed) :
    ∀ o ∈ [setCurrentAnimation m name t tt flags speed,
        setCurrentAnimation_noflags m name t tt speed,
        forceCurrentAnimation m name t tt flags speed,
        forceCurrentAnimation_noflags m name t tt speed,
        setAnimToDefault m t,
        forceAnimToDefault m t],
      0 ≤ o.mesh.current_anim_.speed ∧ 0 ≤ o.mesh.last_anim_.speed := by
  have key : ∀ o : Outcome,
      (o.mesh = m ∨ ∃ i tt2 f s, o.mesh = (changeAnimation m i t tt2 f s).mesh) →
      0 ≤ o.mesh.current_anim_.speed ∧ 0 ≤ o.mesh.last_anim_.speed := by
    intro o ho
    rcases ho with ho | ⟨i, tt2, f, s, ho⟩
    · rw [ho]; exact ⟨hc, hl⟩
    · rw [ho]; exact changeAnimation_speed_nonneg m i t tt2 f s hc hl
  have lift : ∀ o : Outcome,
      (o.mesh = m ∨ ∃ i f s, o.mesh = (changeAnimation m i t tt f s).mesh) →
      (o.mesh = m ∨ ∃ i tt2 f s, o.mesh = (changeAnimation m i t tt2 f s).mesh) := by
    intro o ho
    rcases ho with ho | ⟨i, f, s, ho⟩
    · exact Or.inl ho
    · exact Or.inr ⟨i, tt, f, s, ho⟩
  intro o ho
  simp only [List.mem_cons, List.mem_singleton, List.not_mem_nil, or_false] at ho
  rcases ho with ho | ho | ho | ho | ho | ho <;> subst ho
  · exact key _ (lift _ (setCurrentAnimation_mesh_cases m name t tt flags speed).1)
  · exact key _ (lift _ (setCurrentAnimation_mesh_cases m name t tt flags speed).2)
  · exact key _ (lift _ (forceCurrentAnimation_mesh_cases m name t tt flags speed).1)
  · exact key _ (lift _ (forceCurrentAnimation_mesh_cases m name t tt flags speed).2)
  · exact key _ (forceAnimToDefault_mesh_cases m t).2
  · exact key _ (forceAnimToDefault_mesh_cases m t).1

/-- Witness of C12: on the "walk" mesh, forcing "walk" with speed -2 stores speed 2 on both
live states. -/
theorem live_speeds_nonneg_witness :
    ((0 : ℚ) ≤ walkLoaded.current_anim_.speed ∧ (0 : ℚ) ≤ walkLoaded.last_anim_.speed) ∧
    0 ≤ (forceCurrentAnimation walkLoaded "walk" 0 (1 / 5) 0 (-2)).mesh.current_anim_.speed ∧
    0 ≤ (forceCurrentAnimation walkLoaded "walk" 0 (1 / 5) 0 (-2)).mesh.last_anim_.speed :=
  have hc : (0 : ℚ) ≤ walkLoaded.current_anim_.speed := by simp [walkLoaded]
  have hl : (0 : ℚ) ≤ walkLoaded.last_anim_.speed := by simp [walkLoaded]
  ⟨⟨hc, hl⟩,
    live_speeds_nonneg walkLoaded "walk" 0 (1 / 5) 0 (-2) hc hl
      (forceCurrentAnimation walkLoaded "walk" 0 (1 / 5) 0 (-2)) (by simp)⟩

/-! ## Default transitions, the overloads without flags, and the registry frame -/

/-- C13: with a default configured (the clip at `default_idx` exists and carries Repeat),
`forceAnimToDefault` leaves the mesh as it was when the current handle is the default clip's
handle, and otherwise is exactly `changeAnimation` to `default_idx` with the default clip's
stored flags and speed and `default_transition_time`.  `setAnimToDefault` is
`forceAnimToDefault` when the current flags include Interruptable, without any test of the
transition window, and does nothing otherwise. -/
theorem forceAnimToDefault_spec (m : AnimatedMesh) (info : AnimInfo) (t : ℚ)
    (hclip : m.anims_.data[m.anim_meta_info_.default_idx]? = some info)
    (hrep : info.flags &&& AnimFlag.Repeat ≠ 0) :
    (m.current_anim_.handle = info.handle → forceAnimToDefault m t = ⟨m, none⟩) ∧
    (m.current_anim_.handle ≠ info.handle →
      forceAnimToDefault m t
        = changeAnimation m m.anim_meta_info_.default_idx t
            m.anim_meta_info_.default_transition_time info.flags info.speed) ∧
    (m.current_anim_.flags &&& AnimFlag.Interruptable ≠ 0 →
      setAnimToDefault m t = forceAnimToDefault m t) ∧
    (m.current_anim_.flags &&& AnimFlag.Interruptable = 0 →
      setAnimToDefault m t = ⟨m, none⟩) := by
  refine ⟨?_, ?_, ?_, ?_⟩
  · intro h
    rw [forceAnimToDefault_of_repeat m info t hclip hrep, if_pos h]
  · intro h
    rw [forceAnimToDefault_of_repeat m info t hclip hrep, if_neg h]
  · intro h
    rw [setAnimToDefault_cases, if_pos h]
  · intro h
    rw [setAnimToDefault_cases, if_neg (not_not.2 h)]

/-- Witness of C13: on `walkDefault` (default "walk", nothing playing) `forceAnimToDefault`
at time 3 is `changeAnimation` to clip 0 with the clip's flags 9, its speed 1 and the default
transition time 1/5. -/
theorem forceAnimToDefault_spec_witness :
    (walkDefault.anims_.data[walkDefault.anim_meta_info_.default_idx]?
        = some ⟨1, ⟨0, 0, 0⟩, ⟨0, 0, 2⟩, 9, 1⟩ ∧
      (9 : Nat) &&& AnimFlag.Repeat ≠ 0 ∧ walkDefault.current_anim_.handle ≠ 1) ∧
    forceAnimToDefault walkDefault 3
      = changeAnimation walkDefault walkDefault.anim_meta_info_.default_idx 3
          walkDefault.anim_meta_info_.default_transition_time 9 1 :=
  ⟨⟨rfl, by decide, by decide⟩,
    (forceAnimToDefault_spec walkDefault ⟨1, ⟨0, 0, 0⟩, ⟨0, 0, 2⟩, 9, 1⟩ 3 rfl
      (by decide)).2.1 (by decide)⟩

/-- C14: for a known name, the overloads without `flags` are the overloads with `flags`
called with the target clip's stored flags; and when the passed speed is effectively zero
(`|speed| < 1e-5`) a switch is made with the target clip's stored speed. -/
theorem noflags_overload_spec (m : AnimatedMesh) (name : String) (i : Nat) (info : AnimInfo)
    (t tt : ℚ) (speed : ℚ)
    (hname : mapFind m.anims_.names name = some i)
    (hclip : m.anims_.data[i]? = some info) :
    forceCurrentAnimation_noflags m name t tt speed
      = forceCurrentAnimation m name t tt info.flags speed ∧
    setCurrentAnimation_noflags m name t tt speed
      = setCurrentAnimation m name t tt info.flags speed ∧
    (|speed| < 1 / 100000 → info.handle ≠ m.current_anim_.handle →
      forceCurrentAnimation_noflags m name t tt speed
        = changeAnimation m i t tt info.flags info.speed) := by
  have hf : forceCurrentAnimation_noflags m name t tt speed
      = forceCurrentAnimation m name t tt info.flags speed := by
    simp only [forceCurrentAnimation_noflags, forceCurrentAnimation, hname, hclip]
  refine ⟨hf, ?_, ?_⟩
  · simp only [setCurrentAnimation_noflags, setCurrentAnimation, hf]
  · intro hz hdiff
    rw [forceCurrentAnimation_noflags_of_diff m name i info t tt speed hname hclip hdiff,
      if_pos hz]

/-- Witness of C14: on the "walk" mesh, forcing "walk" without flags and with speed 0 is
forcing it with the stored flags 9, and switches with the stored speed 1. -/
theorem noflags_overload_spec_witness :
    (mapFind walkLoaded.anims_.names "walk" = some 0 ∧
      walkLoaded.anims_.data[0]? = some ⟨1, ⟨0, 0, 0⟩, ⟨0, 0, 2⟩, 9, 1⟩ ∧
      |(0 : ℚ)| < 1 / 100000 ∧ (1 : Nat) ≠ walkLoaded.current_anim_.handle) ∧
    forceCurrentAnimation_noflags walkLoaded "walk" 0 (1 / 5) 0
      = forceCurrentAnimation walkLoaded "walk" 0 (1 / 5) 9 0 ∧
    forceCurrentAnimation_noflags walkLoaded "walk" 0 (1 / 5) 0
      = changeAnimation walkLoaded 0 0 (1 / 5) 9 1 :=
  have h := noflags_overload_spec walkLoaded "walk" 0 ⟨1, ⟨0, 0, 0⟩, ⟨0, 0, 2⟩, 9, 1⟩
    0 (1 / 5) 0 rfl rfl
  have hz : |(0 : ℚ)| < 1 / 100000 := by norm_num
  ⟨⟨rfl, rfl, hz, by decide⟩, h.1, h.2.2 hz (by decide)⟩

/-- C15: the per-frame operations leave the registry as it was.  For every mesh and all
arguments, known name or not, the name map and the clip list after `setCurrentAnimation`,
`forceCurrentAnimation` (both overloads each), `setAnimToDefault`, `forceAnimToDefault` and
`offsetSinceLastFrame` are those before the call, whether the call switches, does nothing or
fails. -/
theorem registry_untouched (m : AnimatedMesh) (name : String) (t tt : ℚ) (flags : Nat)
    (speed : ℚ) :
    (∀ o ∈ [setCurrentAnimation m name t tt flags speed,
        setCurrentAnimation_noflags m name t tt speed,
        forceCurrentAnimation m name t tt flags speed,
        forceCurrentAnimation_noflags m name t tt speed,
        setAnimToDefault m t,
        forceAnimToDefault m t],
      o.mesh.anims_ = m.anims_) ∧
    (offsetSinceLastFrame m).2.anims_ = m.anims_ := by
  have key : ∀ o : Outcome,
      (o.mesh = m ∨ ∃ i tt2 f s, o.mesh = (changeAnimation m i t tt2 f s).mesh) →
      o.mesh.anims_ = m.anims_ := by
    intro o ho
    rcases ho with ho | ⟨i, tt2, f, s, ho⟩
    · rw [ho]
    · rw [ho]; exact changeAnimation_anims m i t tt2 f s
  have lift : ∀ o : Outcome,
      (o.mesh = m ∨ ∃ i f s, o.mesh = (changeAnimation m i t tt f s).mesh) →
      (o.mesh = m ∨ ∃ i tt2 f s, o.mesh = (changeAnimation m i t tt2 f s).mesh) := by
    intro o ho
    rcases ho with ho | ⟨i, f, s, ho⟩
    · exact Or.inl ho
    · exact Or.inr ⟨i, tt, f, s, ho⟩
  refine ⟨?_, rfl⟩
  intro o ho
  simp only [List.mem_cons, List.mem_singleton, List.not_mem_nil, or_false] at ho
  rcases ho with ho | ho | ho | ho | ho | ho <;> subst ho
  · exact key _ (lift _ (setCurrentAnimation_mesh_cases m name t tt flags speed).1)
  · exact key _ (lift _ (setCurrentAnimation_mesh_cases m name t tt flags speed).2)
  · exact key _ (lift _ (forceCurrentAnimation_mesh_cases m name t tt flags speed).1)
  · exact key _ (lift _ (forceCurrentAnimation_mesh_cases m name t tt flags speed).2)
  · exact key _ (forceAnimToDefault_mesh_cases m t).2
  · exact key _ (forceAnimToDefault_mesh_cases m t).1

/-- Witness of C15: forcing the unknown name "run" on the "walk" mesh fails and leaves the
registry as it was. -/
theorem registry_untouched_witness :
    (forceCurrentAnimation walkLoaded "run" 0 (1 / 5) 0 1).mesh.anims_ = walkLoaded.anims_ ∧
    (offsetSinceLastFrame walkLoaded).2.anims_ = walkLoaded.anims_ :=
  ⟨(registry_untouched walkLoaded "run" 0 (1 / 5) 0 1).1
      (forceCurrentAnimation walkLoaded "run" 0 (1 / 5) 0 1) (by simp),
    (registry_untouched walkLoaded "run" 0 (1 / 5) 0 1).2⟩

/-! ## Offsets, direction and the stored speed -/

theorem changeAnimation_last_next (m : AnimatedMesh) (i : Nat) (info : AnimInfo)
    (t tt : ℚ) (flags : Nat) (speed : ℚ) (h : m.anims_.data[i]? = some info)
    (hprev : m.last_anim_.handle ≠ 0) :
    (changeAnimation m i t tt flags speed).mesh.last_anim_
      = { m.current_anim_ with
            offset := (changeAnimation m i t tt flags speed).mesh.current_anim_.offset } := by
  have hb : (m.last_anim_.handle == 0) = false := by simpa using hprev
  simp only [changeAnimation, h, hb, Bool.false_eq_true, if_false]
  split_ifs <;> simp

/-- C16: a transition that is not the first one.  If the previous state's handle is not null
and `name` resolves to a registry clip whose handle differs from the current one, then after
`forceCurrentAnimation` the previous state has the index, handle, speed and flags the current
state had before, the current offset is the clip's `start_offset` (its `end_offset` if the
requested flags have Backwards), negated if the requested flags have Mirrored, the previous
offset equals the new current offset, and `offsetSinceLastFrame` called right after returns
(0, 0). -/
theorem forceCurrentAnimation_next_transition (m : AnimatedMesh) (name : String) (i : Nat)
    (info : AnimInfo) (t tt : ℚ) (flags : Nat) (speed : ℚ)
    (hname : mapFind m.anims_.names name = some i)
    (hclip : m.anims_.data[i]? = some info)
    (hdiff : info.handle ≠ m.current_anim_.handle)
    (hprev : m.last_anim_.handle ≠ 0) :
    ((forceCurrentAnimation m name t tt flags speed).mesh.last_anim_.idx
        = m.current_anim_.idx ∧
      (forceCurrentAnimation m name t tt flags speed).mesh.last_anim_.handle
        = m.current_anim_.handle ∧
      (forceCurrentAnimation m name t tt flags speed).mesh.last_anim_.speed
        = m.current_anim_.speed ∧
      (forceCurrentAnimation m name t tt flags speed).mesh.last_anim_.flags
        = m.current_anim_.flags) ∧
    (forceCurrentAnimation m name t tt flags speed).mesh.current_anim_.offset
      = (if flags &&& AnimFlag.Mirrored = 0 then
          (if flags &&& AnimFlag.Backwards = 0 then info.start_offset else info.end_offset)
        else
          (if flags &&& AnimFlag.Backwards = 0 then info.start_offset
            else info.end_offset).neg) ∧
    (forceCurrentAnimation m name t tt flags speed).mesh.last_anim_.offset
      = (forceCurrentAnimation m name t tt flags speed).mesh.current_anim_.offset ∧
    (offsetSinceLastFrame (forceCurrentAnimation m name t tt flags speed).mesh).1
      = ⟨0, 0⟩ := by
  rw [forceCurrentAnimation_of_diff m name i info t tt flags speed hname hclip hdiff]
  have hl := changeAnimation_last_next m i info t tt flags
    (if |speed| < 1 / 100000 then info.speed else speed) hclip hprev
  refine ⟨?_, changeAnimation_current_offset m i info t tt flags _ hclip, ?_, ?_⟩
  · rw [hl]; exact ⟨rfl, rfl, rfl, rfl⟩
  · rw [hl]
  · simp only [offsetSinceLastFrame, Vec3.sub]
    rw [hl]
    simp

/-- Witness of C16: while "walk" plays, forcing "jump" with flags Backwards and Mirrored puts
both offsets at (0,0,-2), the negated `end_offset`, and keeps index 0 and handle 1 of "walk" in
the previous state. -/
theorem forceCurrentAnimation_next_transition_witness :
    (mapFind walkJumpPlaying.anims_.names "jump" = some 1 ∧
      walkJumpPlaying.anims_.data[1]? = some ⟨2, ⟨0, 0, 0⟩, ⟨0, 0, 2⟩, 8, 1⟩ ∧
      (2 : Nat) ≠ walkJumpPlaying.current_anim_.handle ∧
      walkJumpPlaying.last_anim_.handle ≠ 0) ∧
    (forceCurrentAnimation walkJumpPlaying "jump" 1 (1 / 5) 6 1).mesh.last_anim_.handle = 1 ∧
    (forceCurrentAnimation walkJumpPlaying "jump" 1 (1 / 5) 6 1).mesh.current_anim_.offset
      = ⟨0, 0, -2⟩ ∧
    (forceCurrentAnimation walkJumpPlaying "jump" 1 (1 / 5) 6 1).mesh.last_anim_.offset
      = ⟨0, 0, -2⟩ ∧
    (offsetSinceLastFrame
      (forceCurrentAnimation walkJumpPlaying "jump" 1 (1 / 5) 6 1).mesh).1 = ⟨0, 0⟩ :=
  have h := forceCurrentAnimation_next_transition walkJumpPlaying "jump" 1
    ⟨2, ⟨0, 0, 0⟩, ⟨0, 0, 2⟩, 8, 1⟩ 1 (1 / 5) 6 1 rfl rfl (by decide) (by decide)
  have hm : ¬ (6 : Nat) &&& AnimFlag.Mirrored = 0 := by decide
  have hb : ¬ (6 : Nat) &&& AnimFlag.Backwards = 0 := by decide
  have ho : (forceCurrentAnimation walkJumpPlaying "jump" 1 (1 / 5) 6 1).mesh.current_anim_.offset
      = ⟨0, 0, -2⟩ := by
    rw [h.2.1, if_neg hm, if_neg hb]
    simp [Vec3.neg]
  ⟨⟨rfl, rfl, by decide, by decide⟩, h.1.2.1, ho, by rw [h.2.2.1, ho], h.2.2.2⟩

/-- C17, counterexample: a positive speed below `1e-5` is not stored.  On the "walk" mesh,
whose clip stores speed 1, forcing "walk" with speed `1e-6` leaves the current speed at 1. -/
theorem tiny_positive_speed_not_stored :
    (mapFind walkLoaded.anims_.names "walk" = some 0 ∧
      walkLoaded.anims_.data[0]? = some ⟨1, ⟨0, 0, 0⟩, ⟨0, 0, 2⟩, 9, 1⟩ ∧
      (1 : Nat) ≠ walkLoaded.current_anim_.handle ∧ (0 : ℚ) < 1 / 1000000) ∧
    (forceCurrentAnimation walkLoaded "walk" 0 (1 / 5) 9 (1 / 1000000)).mesh.current_anim_.speed
      = 1 ∧
    ¬ ((forceCurrentAnimation walkLoaded "walk" 0 (1 / 5) 9 (1 / 1000000)
          ).mesh.current_anim_.speed = 1 / 1000000 ∧
        (forceCurrentAnimation walkLoaded "walk" 0 (1 / 5) 9 (1 / 1000000)
          ).mesh.current_anim_.flags = 9) := by
  have hs : (forceCurrentAnimation walkLoaded "walk" 0 (1 / 5) 9 (1 / 1000000)
      ).mesh.current_anim_.speed = 1 := by
    rw [forceCurrentAnimation_of_diff walkLoaded "walk" 0 ⟨1, ⟨0, 0, 0⟩, ⟨0, 0, 2⟩, 9, 1⟩
      0 (1 / 5) 9 (1 / 1000000) rfl rfl (by decide)]
    rw [(changeAnimation_speed_flags walkLoaded 0 ⟨1, ⟨0, 0, 0⟩, ⟨0, 0, 2⟩, 9, 1⟩
      0 (1 / 5) 9 _ rfl).1]
    have hz : |(1 / 1000000 : ℚ)| < 1 / 100000 := by
      rw [abs_of_pos (by norm_num)]; norm_num
    rw [if_pos hz]
    norm_num
  refine ⟨⟨rfl, rfl, by decide, by norm_num⟩, hs, ?_⟩
  rintro ⟨h1, _⟩
  rw [hs] at h1
  norm_num at h1

/-- C17, amended: a speed of at least `1e-5` is stored as it is.  If `name` resolves to a
registry clip whose handle differs from the current one and `speed ≥ 1e-5`, then after
`forceCurrentAnimation` the current state has speed `speed` and flags `flags`, whatever
speed the clip stores. -/
theorem forceCurrentAnimation_positive_speed (m : AnimatedMesh) (name : String) (i : Nat)
    (info : AnimInfo) (t tt : ℚ) (flags : Nat) (speed : ℚ)
    (hname : mapFind m.anims_.names name = some i)
    (hclip : m.anims_.data[i]? = some info)
    (hdiff : info.handle ≠ m.current_anim_.handle)
    (hspeed : 1 / 100000 ≤ speed) :
    (forceCurrentAnimation m name t tt flags speed).mesh.current_anim_.speed = speed ∧
    (forceCurrentAnimation m name t tt flags speed).mesh.current_anim_.flags = flags := by
  have hpos : speed > 0 := lt_of_lt_of_le (by norm_num) hspeed
  have hbig : ¬ |speed| < 1 / 100000 := by
    rw [abs_of_pos hpos]; exact not_lt.2 hspeed
  rw [forceCurrentAnimation_of_diff m name i info t tt flags speed hname hclip hdiff,
    if_neg hbig]
  have h := changeAnimation_speed_flags m i info t tt flags speed hclip
  rw [if_pos hpos, if_pos hpos] at h
  exact h

/-- Witness of C17 as amended: forcing "walk" with flags 0 and speed 3 stores speed 3 and
flags 0, although the clip stores speed 1. -/
theorem forceCurrentAnimation_positive_speed_witness :
    (mapFind walkLoaded.anims_.names "walk" = some 0 ∧
      walkLoaded.anims_.data[0]? = some ⟨1, ⟨0, 0, 0⟩, ⟨0, 0, 2⟩, 9, 1⟩ ∧
      (1 : Nat) ≠ walkLoaded.current_anim_.handle ∧ (1 / 100000 : ℚ) ≤ 3) ∧
    (forceCurrentAnimation walkLoaded "walk" 0 (1 / 5) 0 3).mesh.current_anim_.speed = 3 ∧
    (forceCurrentAnimation walkLoaded "walk" 0 (1 / 5) 0 3).mesh.current_anim_.flags = 0 :=
  ⟨⟨rfl, rfl, by decide, by norm_num⟩,
    forceCurrentAnimation_positive_speed walkLoaded "walk" 0
      ⟨1, ⟨0, 0, 0⟩, ⟨0, 0, 2⟩, 9, 1⟩ 0 (1 / 5) 0 3 rfl rfl (by decide) (by norm_num)⟩

/-- C18, evaluated at the failing input: `changeAnimation` picks the offset from the
requested flags before it turns a negative speed into the Backwards flag.  On the "walk"
mesh (`start_offset` (0,0,0), `end_offset` (0,0,2)), forcing "walk" with flags 0 and speed -2
stores flags that contain Backwards, yet the current offset is `start_offset`, not
`end_offset`. -/
theorem negative_speed_keeps_start_offset :
    hasFlag (forceCurrentAnimation walkLoaded "walk" 0 (1 / 5) 0 (-2)).mesh.current_anim_.flags
      AnimFlag.Backwards = true ∧
    (forceCurrentAnimation walkLoaded "walk" 0 (1 / 5) 0 (-2)).mesh.current_anim_.offset
      = ⟨0, 0, 0⟩ ∧
    (forceCurrentAnimation walkLoaded "walk" 0 (1 / 5) 0 (-2)).mesh.current_anim_.offset
      ≠ ⟨0, 0, 2⟩ := by
  have hf := forceCurrentAnimation_of_diff walkLoaded "walk" 0
    ⟨1, ⟨0, 0, 0⟩, ⟨0, 0, 2⟩, 9, 1⟩ 0 (1 / 5) 0 (-2) rfl rfl (by decide)
  have hbig : ¬ |(-2 : ℚ)| < 1 / 100000 := by norm_num
  rw [if_neg hbig] at hf
  have hsf := changeAnimation_speed_flags walkLoaded 0 ⟨1, ⟨0, 0, 0⟩, ⟨0, 0, 2⟩, 9, 1⟩
    0 (1 / 5) 0 (-2) rfl
  have hneg : ¬ (-2 : ℚ) > 0 := by norm_num
  rw [if_neg hneg, if_neg hneg] at hsf
  have hoff := changeAnimation_current_offset walkLoaded 0 ⟨1, ⟨0, 0, 0⟩, ⟨0, 0, 2⟩, 9, 1⟩
    0 (1 / 5) 0 (-2) rfl
  have hm : (0 : Nat) &&& AnimFlag.Mirrored = 0 := by decide
  have hb : (0 : Nat) &&& AnimFlag.Backwards = 0 := by decide
  rw [if_pos hm, if_pos hb] at hoff
  rw [hf, hsf.2, hoff]
  refine ⟨by decide, rfl, ?_⟩
  intro h
  injection h with _ _ hz
  norm_num at hz

/-! ## The soft-request guard -/

theorem forceCurrentAnimation_error_unknown (m : AnimatedMesh) (name : String) (t tt : ℚ)
    (flags : Nat) (speed : ℚ) :
    ((forceCurrentAnimation m name t tt flags speed).error = some Error.UnknownAnimationName
      ↔ mapFind m.anims_.names name = none) ∧
    ((forceCurrentAnimation_noflags m name t tt speed).error
        = some Error.UnknownAnimationName
      ↔ mapFind m.anims_.names name = none) := by
  cases hname : mapFind m.anims_.names name with
  | none => simp [forceCurrentAnimation, forceCurrentAnimation_noflags, hname]
  | some i =>
    cases hclip : m.anims_.data[i]? with
    | none => simp [forceCurrentAnimation, forceCurrentAnimation_noflags, hname, hclip]
    | some info =>
      simp only [forceCurrentAnimation, forceCurrentAnimation_noflags, hname, hclip]
      refine ⟨?_, ?_⟩ <;> split_ifs <;>
        simp [changeAnimation_error m i info _ _ _ _ hclip]

/-- C19, counterexample: inside the transition window a soft request is rejected although the
playing clip is Interruptable.  While "walk" (flags Repeat and Interruptable) plays with the
window ending at 1/5, `setCurrentAnimation("jump", 1/10, ...)` leaves the mesh as it was: the
current handle is still that of "walk", not that of "jump". -/
theorem request_in_window_rejected_although_interruptable :
    (walkJumpPlaying.current_anim_.flags &&& AnimFlag.Interruptable ≠ 0 ∧
      mapFind walkJumpPlaying.anims_.names "jump" = some 1 ∧
      walkJumpPlaying.anims_.data[1]? = some ⟨2, ⟨0, 0, 0⟩, ⟨0, 0, 2⟩, 8, 1⟩ ∧
      (2 : Nat) ≠ walkJumpPlaying.current_anim_.handle ∧
      (1 / 10 : ℚ) < walkJumpPlaying.anim_meta_info_.end_of_last_anim
        + walkJumpPlaying.anim_meta_info_.transition_time) ∧
    setCurrentAnimation walkJumpPlaying "jump" (1 / 10) (1 / 5) 8 1
      = ⟨walkJumpPlaying, none⟩ ∧
    setCurrentAnimation_noflags walkJumpPlaying "jump" (1 / 10) (1 / 5) 1
      = ⟨walkJumpPlaying, none⟩ ∧
    (setCurrentAnimation walkJumpPlaying "jump" (1 / 10) (1 / 5) 8 1).mesh.current_anim_.handle
      ≠ 2 := by
  have hwin : (1 / 10 : ℚ) < walkJumpPlaying.anim_meta_info_.end_of_last_anim
      + walkJumpPlaying.anim_meta_info_.transition_time := by
    simp only [walkJumpPlaying]; norm_num
  have hfl : (1 / 10 : ℚ) < f32add walkJumpPlaying.anim_meta_info_.end_of_last_anim
      walkJumpPlaying.anim_meta_info_.transition_time := by
    simp only [walkJumpPlaying]
    rw [f32add_walk_window]
    norm_num
  have hno := setCurrentAnimation_of_not_guard walkJumpPlaying "jump" (1 / 10) (1 / 5) 8 1
    (fun h => absurd h.1 (not_le.2 hfl))
  have hno2 := setCurrentAnimation_of_not_guard walkJumpPlaying "jump" (1 / 10) (1 / 5) 0 1
    (fun h => absurd h.1 (not_le.2 hfl))
  refine ⟨⟨by decide, rfl, rfl, by decide, hwin⟩, hno.1, hno2.2, ?_⟩
  rw [hno.1]
  decide

/-- C19, amended: inside the transition window a soft request is rejected even when the
playing clip is Interruptable, the window being the one the code evaluates: the times before
the `float` sum `end_of_last_anim + transition_time` (`f32add`).  For a current state whose
flags include Interruptable and a known clip whose handle differs from the current one,
`setCurrentAnimation` (either overload) called at a time before that sum leaves the mesh as it
was and raises no error; called at that sum or later (in particular at a `float` time not
below the exact sum) it is accepted and the current state takes the clip's handle and
index. -/
theorem setCurrentAnimation_window (m : AnimatedMesh) (name : String) (i : Nat)
    (info : AnimInfo) (t tt : ℚ) (flags : Nat) (speed : ℚ)
    (hint : m.current_anim_.flags &&& AnimFlag.Interruptable ≠ 0)
    (hname : mapFind m.anims_.names name = some i)
    (hclip : m.anims_.data[i]? = some info)
    (hdiff : info.handle ≠ m.current_anim_.handle) :
    (t < f32add m.anim_meta_info_.end_of_last_anim m.anim_meta_info_.transition_time →
      setCurrentAnimation m name t tt flags speed = ⟨m, none⟩ ∧
      setCurrentAnimation_noflags m name t tt speed = ⟨m, none⟩) ∧
    ((f32add m.anim_meta_info_.end_of_last_anim m.anim_meta_info_.transition_time ≤ t ∨
        (roundF32 t = t ∧
          m.anim_meta_info_.end_of_last_anim + m.anim_meta_info_.transition_time ≤ t)) →
      ((setCurrentAnimation m name t tt flags speed).error = none ∧
        (setCurrentAnimation m name t tt flags speed).mesh.current_anim_.handle
          = info.handle ∧
        (setCurrentAnimation m name t tt flags speed).mesh.current_anim_.idx = i) ∧
      ((setCurrentAnimation_noflags m name t tt speed).error = none ∧
        (setCurrentAnimation_noflags m name t tt speed).mesh.current_anim_.handle
          = info.handle ∧
        (setCurrentAnimation_noflags m name t tt speed).mesh.current_anim_.idx = i)) := by
  constructor
  · intro hwin
    exact setCurrentAnimation_of_not_guard m name t tt flags speed
      (fun h => absurd h.1 (not_le.2 hwin))
  · intro hguard
    have hwin :
        f32add m.anim_meta_info_.end_of_last_anim m.anim_meta_info_.transition_time ≤ t := by
      rcases hguard with h | ⟨hfl, hex⟩
      · exact h
      · exact f32add_le_of_exact_le _ _ t hfl hex
    rw [(setCurrentAnimation_of_guard m name t tt flags speed hwin hint).1,
      (setCurrentAnimation_of_guard m name t tt flags speed hwin hint).2,
      forceCurrentAnimation_of_diff m name i info t tt flags speed hname hclip hdiff,
      forceCurrentAnimation_noflags_of_diff m name i info t tt speed hname hclip hdiff]
    exact ⟨⟨changeAnimation_error m i info _ _ _ _ hclip,
        (changeAnimation_current_idx m i info _ _ _ _ hclip).2,
        (changeAnimation_current_idx m i info _ _ _ _ hclip).1⟩,
      ⟨changeAnimation_error m i info _ _ _ _ hclip,
        (changeAnimation_current_idx m i info _ _ _ _ hclip).2,
        (changeAnimation_current_idx m i info _ _ _ _ hclip).1⟩⟩

/-- Witness of C19 as amended, at the end of the window: one hour in, with the `float` sum
3600.199951171875 as end of the window, a request for "jump" made exactly then is accepted and
the current handle becomes 2, while a request made at 3600.10009765625 is ignored. -/
theorem setCurrentAnimation_window_witness :
    (walkJumpLate.current_anim_.flags &&& AnimFlag.Interruptable ≠ 0 ∧
      mapFind walkJumpLate.anims_.names "jump" = some 1 ∧
      walkJumpLate.anims_.data[1]? = some ⟨2, ⟨0, 0, 0⟩, ⟨0, 0, 2⟩, 8, 1⟩ ∧
      (2 : Nat) ≠ walkJumpLate.current_anim_.handle ∧
      f32add walkJumpLate.anim_meta_info_.end_of_last_anim
        walkJumpLate.anim_meta_info_.transition_time ≤ (14746419 / 4096 : ℚ) ∧
      (7373005 / 2048 : ℚ) < f32add walkJumpLate.anim_meta_info_.end_of_last_anim
        walkJumpLate.anim_meta_info_.transition_time) ∧
    ((setCurrentAnimation walkJumpLate "jump" (14746419 / 4096) (1 / 5) 8 1).error = none ∧
      (setCurrentAnimation walkJumpLate "jump" (14746419 / 4096) (1 / 5) 8 1
        ).mesh.current_anim_.handle = 2 ∧
      (setCurrentAnimation walkJumpLate "jump" (14746419 / 4096) (1 / 5) 8 1
        ).mesh.current_anim_.idx = 1) ∧
    setCurrentAnimation walkJumpLate "jump" (7373005 / 2048) (1 / 5) 8 1
      = ⟨walkJumpLate, none⟩ :=
  have hfl : f32add walkJumpLate.anim_meta_info_.end_of_last_anim
      walkJumpLate.anim_meta_info_.transition_time = 14746419 / 4096 := by
    simp only [walkJumpLate]
    rw [f32add_late_window]
  have hwin : f32add walkJumpLate.anim_meta_info_.end_of_last_anim
      walkJumpLate.anim_meta_info_.transition_time ≤ (14746419 / 4096 : ℚ) := le_of_eq hfl
  have hin : (7373005 / 2048 : ℚ) < f32add walkJumpLate.anim_meta_info_.end_of_last_anim
      walkJumpLate.anim_meta_info_.transition_time := by
    rw [hfl]; norm_num
  ⟨⟨by decide, rfl, rfl, by decide, hwin, hin⟩,
    ((setCurrentAnimation_window walkJumpLate "jump" 1 ⟨2, ⟨0, 0, 0⟩, ⟨0, 0, 2⟩, 8, 1⟩
      (14746419 / 4096) (1 / 5) 8 1 (by decide) rfl rfl (by decide)).2 (Or.inl hwin)).1,
    ((setCurrentAnimation_window walkJumpLate "jump" 1 ⟨2, ⟨0, 0, 0⟩, ⟨0, 0, 2⟩, 8, 1⟩
      (7373005 / 2048) (1 / 5) 8 1 (by decide) rfl rfl (by decide)).1 hin).1⟩

/-- C20, counterexample: `setCurrentAnimation` can end with UnknownAnimationName while the
guard, taken on the exact sum, does not hold.  One hour in (`end_of_last_anim = 3600`,
`transition_time = 0.2f`, current clip Interruptable) the time 3600.199951171875 is below the
exact sum 3600.2000000029..., so `end_of_last_anim + transition_time ≤ current_time` fails;
but it equals the `float` sum the code compares with, and the request for the unknown name
"run" ends with UnknownAnimationName. -/
theorem request_unknown_fails_below_exact_sum :
    ¬ (walkJumpLate.anim_meta_info_.end_of_last_anim
        + walkJumpLate.anim_meta_info_.transition_time ≤ (14746419 / 4096 : ℚ)) ∧
    (∀ i, ("run", i) ∉ walkJumpLate.anims_.names) ∧
    (setCurrentAnimation walkJumpLate "run" (14746419 / 4096) (13421773 / 67108864) 8 1).error
      = some Error.UnknownAnimationName := by
  have hex : ¬ (walkJumpLate.anim_meta_info_.end_of_last_anim
      + walkJumpLate.anim_meta_info_.transition_time ≤ (14746419 / 4096 : ℚ)) := by
    simp only [walkJumpLate]; norm_num
  have hrun : ∀ i, ("run", i) ∉ walkJumpLate.anims_.names := by
    intro i; simp [walkJumpLate, walkJumpLoaded]
  have hwin : f32add walkJumpLate.anim_meta_info_.end_of_last_anim
      walkJumpLate.anim_meta_info_.transition_time ≤ (14746419 / 4096 : ℚ) := by
    simp only [walkJumpLate]
    rw [f32add_late_window]
  refine ⟨hex, hrun, ?_⟩
  rw [(setCurrentAnimation_of_guard walkJumpLate "run" (14746419 / 4096)
    (13421773 / 67108864) 8 1 hwin (by decide)).1]
  exact (forceCurrentAnimation_error_unknown walkJumpLate "run" _ _ _ _).1.2
    ((mapFind_eq_none_iff _ _).2 hrun)

/-- C20, amended: when the guard holds as the code evaluates it, that is the `float` sum
`end_of_last_anim + transition_time` (`f32add`) is `≤ current_time` (equality included) and
the current flags include Interruptable, `setCurrentAnimation` is `forceCurrentAnimation` with
the same arguments, in both overloads: same mesh afterwards, same error; this covers every
`float` time with `end_of_last_anim + transition_time ≤ current_time` on the exact sum.  Hence
`setCurrentAnimation` ends with UnknownAnimationName exactly when the guard on the `float` sum
holds and the name is not a key of the registry. -/
theorem setCurrentAnimation_delegates (m : AnimatedMesh) (name : String) (t tt : ℚ)
    (flags : Nat) (speed : ℚ) :
    ((f32add m.anim_meta_info_.end_of_last_anim m.anim_meta_info_.transition_time ≤ t ∨
        (roundF32 t = t ∧
          m.anim_meta_info_.end_of_last_anim + m.anim_meta_info_.transition_time ≤ t)) →
      m.current_anim_.flags &&& AnimFlag.Interruptable ≠ 0 →
      setCurrentAnimation m name t tt flags speed
        = forceCurrentAnimation m name t tt flags speed ∧
      setCurrentAnimation_noflags m name t tt speed
        = forceCurrentAnimation_noflags m name t tt speed) ∧
    ((setCurrentAnimation m name t tt flags speed).error = some Error.UnknownAnimationName
      ↔ (f32add m.anim_meta_info_.end_of_last_anim m.anim_meta_info_.transition_time ≤ t ∧
          m.current_anim_.flags &&& AnimFlag.Interruptable ≠ 0) ∧
        ∀ i, (name, i) ∉ m.anims_.names) ∧
    ((setCurrentAnimation_noflags m name t tt speed).error
        = some Error.UnknownAnimationName
      ↔ (f32add m.anim_meta_info_.end_of_last_anim m.anim_meta_info_.transition_time ≤ t ∧
          m.current_anim_.flags &&& AnimFlag.Interruptable ≠ 0) ∧
        ∀ i, (name, i) ∉ m.anims_.names) := by
  refine ⟨?_, ?_⟩
  · intro hguard hint
    have hwin :
        f32add m.anim_meta_info_.end_of_last_anim m.anim_meta_info_.transition_time ≤ t := by
      rcases hguard with h | ⟨hfl, hex⟩
      · exact h
      · exact f32add_le_of_exact_le _ _ t hfl hex
    exact setCurrentAnimation_of_guard m name t tt flags speed hwin hint
  rw [← mapFind_eq_none_iff]
  by_cases hg :
      f32add m.anim_meta_info_.end_of_last_anim m.anim_meta_info_.transition_time ≤ t
      ∧ m.current_anim_.flags &&& AnimFlag.Interruptable ≠ 0
  · rw [(setCurrentAnimation_of_guard m name t tt flags speed hg.1 hg.2).1,
      (setCurrentAnimation_of_guard m name t tt flags speed hg.1 hg.2).2,
      (forceCurrentAnimation_error_unknown m name t tt flags speed).1,
      (forceCurrentAnimation_error_unknown m name t tt flags speed).2]
    simp [hg]
  · rw [(setCurrentAnimation_of_not_guard m name t tt flags speed hg).1,
      (setCurrentAnimation_of_not_guard m name t tt flags speed hg).2]
    simp [hg]

/-- Witness of C20 as amended, at the boundary: while "walk" plays with `transition_time`
0.2 and `end_of_last_anim` 0, the `float` sum is `0.2f`; a request made exactly at `0.2f` is
the forced call, for the known name "jump" and for the unknown name "run", which ends with
UnknownAnimationName.  At the `float` time 1/4, past the exact sum 1/5, the request is the
forced call as well. -/
theorem setCurrentAnimation_delegates_witness :
    (f32add walkJumpPlaying.anim_meta_info_.end_of_last_anim
        walkJumpPlaying.anim_meta_info_.transition_time ≤ (13421773 / 67108864 : ℚ) ∧
      walkJumpPlaying.current_anim_.flags &&& AnimFlag.Interruptable ≠ 0 ∧
      roundF32 (1 / 4) = 1 / 4 ∧
      walkJumpPlaying.anim_meta_info_.end_of_last_anim
        + walkJumpPlaying.anim_meta_info_.transition_time ≤ (1 / 4 : ℚ)) ∧
    setCurrentAnimation walkJumpPlaying "jump" (13421773 / 67108864) (1 / 5) 8 1
      = forceCurrentAnimation walkJumpPlaying "jump" (13421773 / 67108864) (1 / 5) 8 1 ∧
    (setCurrentAnimation walkJumpPlaying "run" (13421773 / 67108864) (1 / 5) 8 1).error
      = some Error.UnknownAnimationName ∧
    setCurrentAnimation walkJumpPlaying "jump" (1 / 4) (1 / 5) 8 1
      = forceCurrentAnimation walkJumpPlaying "jump" (1 / 4) (1 / 5) 8 1 :=
  have hwin : f32add walkJumpPlaying.anim_meta_info_.end_of_last_anim
      walkJumpPlaying.anim_meta_info_.transition_time ≤ (13421773 / 67108864 : ℚ) := by
    simp only [walkJumpPlaying]
    rw [f32add_walk_window]
  have hint : walkJumpPlaying.current_anim_.flags &&& AnimFlag.Interruptable ≠ 0 := by
    decide
  have hrun : ∀ i, ("run", i) ∉ walkJumpPlaying.anims_.names := by
    intro i; simp [walkJumpPlaying, walkJumpLoaded]
  have hex : walkJumpPlaying.anim_meta_info_.end_of_last_anim
      + walkJumpPlaying.anim_meta_info_.transition_time ≤ (1 / 4 : ℚ) := by
    simp only [walkJumpPlaying]; norm_num
  ⟨⟨hwin, hint, roundF32_quarter, hex⟩,
    ((setCurrentAnimation_delegates walkJumpPlaying "jump" (13421773 / 67108864) (1 / 5) 8 1).1
      (Or.inl hwin) hint).1,
    (setCurrentAnimation_delegates walkJumpPlaying "run" (13421773 / 67108864) (1 / 5)
      8 1).2.1.2 ⟨⟨hwin, hint⟩, hrun⟩,
    ((setCurrentAnimation_delegates walkJumpPlaying "jump" (1 / 4) (1 / 5) 8 1).1
      (Or.inr ⟨roundF32_quarter, hex⟩) hint).1⟩

/-! ## Failed imports and effectively zero speed -/

theorem mapFind_append_absent (l : List (String × Nat)) (key : String) (val : Nat)
    (h : mapFind l key = none) : mapFind (l ++ [(key, val)]) key = some val := by
  induction l with
  | nil => simp [mapFind]
  | cons p rest ih =>
    obtain ⟨k, v⟩ := p
    by_cases hk : k = key
    · simp [mapFind, hk] at h
    · simp only [mapFind, if_neg hk] at h
      simp [mapFind, hk, ih h]

theorem addAnimation_data_length (m : AnimatedMesh) (imp : Import)
    (filename anim_name : String) (flags : Nat) (speed : ℚ)
    (h : mapFind m.anims_.names anim_name = none) :
    (addAnimation m imp filename anim_name flags speed).mesh.anims_.data.length
      = m.anims_.data.length + 1 := by
  simp only [addAnimation, Animations.canFind, h, Option.isSome_none, Bool.false_eq_true,
    if_false, Animations.modify]
  split_ifs
  · simp
  · split
    · simp
    · split <;> simp

theorem addAnimation_error_of_failed_import (m : AnimatedMesh) (imp : Import)
    (filename anim_name : String) (flags : Nat) (speed : ℚ)
    (h : mapFind m.anims_.names anim_name = none) :
    (imp.scene = 0 →
      (addAnimation m imp filename anim_name flags speed).error
        = some Error.ImportFailure) ∧
    (imp.scene ≠ 0 → imp.node = none →
      (addAnimation m imp filename anim_name flags speed).error
        = some Error.NoCommonBone) := by
  constructor
  · intro hs
    simp [addAnimation, Animations.canFind, h, hs]
  · intro hs hn
    simp [addAnimation, Animations.canFind, h, hs, hn]

/-- C21: `addAnimation` is not atomic on import failures.  For a name that is not yet a key,
when the importer returns a null scene the call ends with ImportFailure, and when the scene
is valid but no common root bone is found it ends with NoCommonBone; in both cases the mesh
the call leaves already has the name as a key mapped to the new index (the old length of the
clip list) and a clip list one longer.  So a second `addAnimation` with that name ends with
DuplicateName, whatever its import, and `forceCurrentAnimation` with that name (either
overload) does not end with UnknownAnimationName. -/
theorem addAnimation_failed_import_extends_registry (m : AnimatedMesh) (imp : Import)
    (filename anim_name : String) (flags : Nat) (speed : ℚ)
    (hnew : ∀ i, (anim_name, i) ∉ m.anims_.names)
    (hfail : imp.scene = 0 ∨ imp.node = none) :
    ((imp.scene = 0 →
        (addAnimation m imp filename anim_name flags speed).error
          = some Error.ImportFailure) ∧
      (imp.scene ≠ 0 →
        (addAnimation m imp filename anim_name flags speed).error
          = some Error.NoCommonBone)) ∧
    mapFind (addAnimation m imp filename anim_name flags speed).mesh.anims_.names anim_name
      = some m.anims_.data.length ∧
    (addAnimation m imp filename anim_name flags speed).mesh.anims_.data.length
      = m.anims_.data.length + 1 ∧
    (∀ (imp2 : Import) (filename2 : String) (flags2 : Nat) (speed2 : ℚ),
      addAnimation (addAnimation m imp filename anim_name flags speed).mesh imp2 filename2
          anim_name flags2 speed2
        = ⟨(addAnimation m imp filename anim_name flags speed).mesh,
            some Error.DuplicateName⟩) ∧
    (∀ (t tt : ℚ) (flags2 : Nat) (speed2 : ℚ),
      (forceCurrentAnimation (addAnimation m imp filename anim_name flags speed).mesh
          anim_name t tt flags2 speed2).error ≠ some Error.UnknownAnimationName ∧
      (forceCurrentAnimation_noflags (addAnimation m imp filename anim_name flags speed).mesh
          anim_name t tt speed2).error ≠ some Error.UnknownAnimationName) := by
  have habs : mapFind m.anims_.names anim_name = none := (mapFind_eq_none_iff _ _).2 hnew
  have herr := addAnimation_error_of_failed_import m imp filename anim_name flags speed habs
  have hkey : mapFind (addAnimation m imp filename anim_name flags speed).mesh.anims_.names
      anim_name = some m.anims_.data.length := by
    rw [addAnimation_names m imp filename anim_name flags speed habs]
    exact mapFind_append_absent _ _ _ habs
  have hsome : mapFind (addAnimation m imp filename anim_name flags speed).mesh.anims_.names
      anim_name ≠ none := by
    rw [hkey]; exact Option.some_ne_none _
  refine ⟨⟨herr.1, ?_⟩, hkey,
    addAnimation_data_length m imp filename anim_name flags speed habs, ?_, ?_⟩
  · intro hs
    rcases hfail with h0 | hn
    · exact absurd h0 hs
    · exact herr.2 hs hn
  · intro imp2 filename2 flags2 speed2
    exact addAnimation_of_known _ imp2 filename2 anim_name flags2 speed2 hsome
  · intro t tt flags2 speed2
    constructor
    · intro h
      exact hsome ((forceCurrentAnimation_error_unknown _ anim_name t tt flags2 speed2).1.1 h)
    · intro h
      exact hsome ((forceCurrentAnimation_error_unknown _ anim_name t tt flags2 speed2).2.1 h)

/-- Witness of C21: on the fresh mesh, loading "walk" from a file that fails to parse ends
with ImportFailure, yet "walk" is then key 0 of a registry with one clip, and a retry with a
good file ends with DuplicateName. -/
theorem addAnimation_failed_import_extends_registry_witness :
    ((∀ i, ("walk", i) ∉ freshMesh.anims_.names) ∧
      (failedImport.scene = 0 ∨ failedImport.node = none)) ∧
    (addAnimation freshMesh failedImport "walk.dae" "walk" 9 1).error
      = some Error.ImportFailure ∧
    mapFind (addAnimation freshMesh failedImport "walk.dae" "walk" 9 1).mesh.anims_.names
      "walk" = some 0 ∧
    (addAnimation freshMesh failedImport "walk.dae" "walk" 9 1).mesh.anims_.data.length
      = 1 ∧
    (addAnimation (addAnimation freshMesh failedImport "walk.dae" "walk" 9 1).mesh
        (walkImport 1) "walk.dae" "walk" 9 1).error = some Error.DuplicateName :=
  have hnew : ∀ i, ("walk", i) ∉ freshMesh.anims_.names := by
    intro i; simp [freshMesh]
  have h := addAnimation_failed_import_extends_registry freshMesh failedImport "walk.dae"
    "walk" 9 1 hnew (Or.inl rfl)
  ⟨⟨hnew, Or.inl rfl⟩, h.1.1 rfl, h.2.1, h.2.2.1,
    by rw [h.2.2.2.1 (walkImport 1) "walk.dae" 9 1]⟩

theorem xor_Backwards_ne (flags : Nat) : flags ^^^ AnimFlag.Backwards ≠ flags := by
  intro h
  have h2 : flags ^^^ AnimFlag.Backwards = flags ^^^ 0 := by rw [h, Nat.xor_zero]
  have h3 := Nat.xor_right_injective h2
  exact absurd h3 (by decide)

/-- C22: an effectively zero speed runs the transition with the clip's stored speed, and a
stored speed that is not positive toggles the direction.  If `name` resolves to a registry
clip whose handle differs from the current one and `|speed| < 1e-5`, then both overloads of
`forceCurrentAnimation` are `changeAnimation` with the clip's stored speed `s`; the stored
current flags are the requested flags exactly when `s > 0`, and are the requested flags with
Backwards toggled when `s ≤ 0`; for `s = 0` the current speed is 0 and Backwards is
flipped. -/
theorem forceCurrentAnimation_zero_speed (m : AnimatedMesh) (name : String) (i : Nat)
    (info : AnimInfo) (t tt : ℚ) (flags : Nat) (speed : ℚ)
    (hname : mapFind m.anims_.names name = some i)
    (hclip : m.anims_.data[i]? = some info)
    (hdiff : info.handle ≠ m.current_anim_.handle)
    (hzero : |speed| < 1 / 100000) :
    (forceCurrentAnimation m name t tt flags speed
        = changeAnimation m i t tt flags info.speed ∧
      forceCurrentAnimation_noflags m name t tt speed
        = changeAnimation m i t tt info.flags info.speed) ∧
    (((forceCurrentAnimation m name t tt flags speed).mesh.current_anim_.flags = flags
        ↔ info.speed > 0) ∧
      ((forceCurrentAnimation_noflags m name t tt speed).mesh.current_anim_.flags = info.flags
        ↔ info.speed > 0)) ∧
    (info.speed ≤ 0 →
      (forceCurrentAnimation m name t tt flags speed).mesh.current_anim_.flags
        = flags ^^^ AnimFlag.Backwards ∧
      (forceCurrentAnimation_noflags m name t tt speed).mesh.current_anim_.flags
        = info.flags ^^^ AnimFlag.Backwards) ∧
    (info.speed = 0 →
      (forceCurrentAnimation m name t tt flags speed).mesh.current_anim_.speed = 0 ∧
      (forceCurrentAnimation m name t tt flags speed).mesh.current_anim_.flags
        = flags ^^^ AnimFlag.Backwards) := by
  have hf : forceCurrentAnimation m name t tt flags speed
      = changeAnimation m i t tt flags info.speed := by
    rw [forceCurrentAnimation_of_diff m name i info t tt flags speed hname hclip hdiff,
      if_pos hzero]
  have hn : forceCurrentAnimation_noflags m name t tt speed
      = changeAnimation m i t tt info.flags info.speed := by
    rw [forceCurrentAnimation_noflags_of_diff m name i info t tt speed hname hclip hdiff,
      if_pos hzero]
  have h1 := changeAnimation_speed_flags m i info t tt flags info.speed hclip
  have h2 := changeAnimation_speed_flags m i info t tt info.flags info.speed hclip
  rw [hf, hn]
  refine ⟨⟨rfl, rfl⟩, ⟨?_, ?_⟩, ?_, ?_⟩
  · rw [h1.2]
    by_cases hs : info.speed > 0
    · simp [hs]
    · simp only [if_neg hs, hs, iff_false]
      exact xor_Backwards_ne flags
  · rw [h2.2]
    by_cases hs : info.speed > 0
    · simp [hs]
    · simp only [if_neg hs, hs, iff_false]
      exact xor_Backwards_ne info.flags
  · intro hs
    rw [h1.2, h2.2, if_neg (not_lt.2 hs), if_neg (not_lt.2 hs)]
    exact ⟨rfl, rfl⟩
  · intro hs
    have hnp : ¬ info.speed > 0 := by rw [hs]; exact lt_irrefl 0
    rw [h1.1, h1.2, if_neg hnp, if_neg hnp, hs]
    exact ⟨neg_zero, rfl⟩

/-- Witness of C22: the clip "still" stores speed 0; forcing it with flags 0 and speed 0
leaves current speed 0 and sets the Backwards flag. -/
theorem forceCurrentAnimation_zero_speed_witness :
    (mapFind stillLoaded.anims_.names "still" = some 0 ∧
      stillLoaded.anims_.data[0]? = some ⟨1, ⟨0, 0, 0⟩, ⟨0, 0, 2⟩, 0, 0⟩ ∧
      (1 : Nat) ≠ stillLoaded.current_anim_.handle ∧ |(0 : ℚ)| < 1 / 100000) ∧
    (forceCurrentAnimation stillLoaded "still" 0 (1 / 5) 0 0).mesh.current_anim_.speed = 0 ∧
    hasFlag (forceCurrentAnimation stillLoaded "still" 0 (1 / 5) 0 0).mesh.current_anim_.flags
      AnimFlag.Backwards = true :=
  have hz : |(0 : ℚ)| < 1 / 100000 := by norm_num
  have h := forceCurrentAnimation_zero_speed stillLoaded "still" 0
    ⟨1, ⟨0, 0, 0⟩, ⟨0, 0, 2⟩, 0, 0⟩ 0 (1 / 5) 0 0 rfl rfl (by decide) hz
  ⟨⟨rfl, rfl, by decide, hz⟩, (h.2.2.2 rfl).1, by rw [(h.2.2.2 rfl).2]; decide⟩

end oglwrap
